import Mathlib

/-!
Verification of the NES emulator core (Rust sources under `src/`) against its
natural-language specification.  Every definition in this file is a shallow
embedding of the corresponding Rust item, translated field by field and arm by
arm; machine integers are represented as `Nat` with explicit `% 2^w` (or `&&&`
masks) exactly where the Rust code wraps, and code paths that panic in Rust are
represented by `Option`/`none` where a claim depends on them.

Notes on the source tree this file embeds:
* `src/bus.rs` is an older revision than `src/ppu.rs`/`src/apu.rs`: it calls
  PPU methods (`read_data`, `write_to_scroll`, ...) that in `src/ppu.rs` exist
  as the arms of `PPU::read_port`/`PPU::write_to_port`.  Those named helpers
  are embedded here from the corresponding `read_port`/`write_to_port` arms.
* `src/mem.rs`, `src/joypad.rs`, `src/ppu/palette.rs` and `Rom::read_prg_rom`
  are referenced by the sources but absent from the tree; the few of them the
  claims touch are modelled from the spec and carry a doc comment saying so.
-/

/-- Truncate to 8 bits (Rust `as u8` / `u8` wrapping arithmetic). -/
def u8 (n : Nat) : Nat := n % 256

/-- Truncate to 16 bits (Rust `as u16` / `u16` wrapping arithmetic). -/
def u16 (n : Nat) : Nat := n % 65536

/-- Rust `a.wrapping_add(b)` on `u8`. -/
def wadd8 (a b : Nat) : Nat := (a + b) % 256

/-- Rust `a.wrapping_sub(b)` on `u16` operands already reduced below 2^16. -/
def wsub16 (a b : Nat) : Nat := (a + 65536 - b % 65536) % 65536

/-! ## ROM (`src/rom.rs`) -/

/-- Nametable mirroring tag (`enum Mirroring` in `src/rom.rs`). -/
inductive Mirroring
  | Vertical
  | Horizontal
  | FourScreen
deriving DecidableEq, Repr

/-- Cartridge image (`struct Rom` in `src/rom.rs`); `prg_rom`/`chr_rom` are the
`Vec<u8>` payloads, bytes as `Nat`. -/
structure Rom where
  prg_rom : List Nat
  chr_rom : List Nat
  mapper : Nat
  screen_mirroring : Mirroring
deriving DecidableEq, Repr

/-- The `NES_TAG` constant of `src/rom.rs`. -/
def NES_TAG : List Nat := [0x4e, 0x45, 0x53, 0x1a]

/-- `PRG_ROM_PAGE_SIZE` of `src/rom.rs`. -/
def PRG_ROM_PAGE_SIZE : Nat := 16384

/-- `CHR_ROM_PAGE_SIZE` of `src/rom.rs`. -/
def CHR_ROM_PAGE_SIZE : Nat := 8192

/-- `Rom::new` (`src/rom.rs` lines 21-54).  The outer `Option` models Rust
panics (out-of-bounds slicing/indexing on too-short input); `Except` is the
source's `Result<Rom, String>`. -/
def Rom.new (raw : List Nat) : Option (Except String Rom) :=
  if raw.length < 4 then none  -- `&raw[0..4]` panics
  else if raw.take 4 ≠ NES_TAG then
    some (.error "File is not in iNES format.")
  else if raw.length < 8 then none  -- `raw[7]` / `raw[6]` panic
  else
    let mapper := (raw.getD 7 0) &&& 0b11110000 ||| (raw.getD 6 0) >>> 4
    let ines_ver := ((raw.getD 7 0) >>> 2) &&& 0b11
    if ines_ver ≠ 0 then some (.error "NES2.0 format is not supported.")
    else
      let four_screen := (raw.getD 6 0) &&& 0b1000 ≠ 0
      let vertical_mirroring := (raw.getD 6 0) &&& 0b1 ≠ 0
      let screen_mirroring :=
        if four_screen then Mirroring.FourScreen
        else if vertical_mirroring then Mirroring.Vertical
        else Mirroring.Horizontal
      let prg_rom_size := (raw.getD 4 0) * PRG_ROM_PAGE_SIZE
      let chr_rom_size := (raw.getD 5 0) * CHR_ROM_PAGE_SIZE
      let skip_trainer := (raw.getD 6 0) &&& 0b100 ≠ 0
      let prg_rom_start := 16 + if skip_trainer then 512 else 0
      let chr_rom_start := prg_rom_start + prg_rom_size
      if raw.length < chr_rom_start + chr_rom_size then none  -- slicing panics
      else
        some (.ok
          { prg_rom := (raw.drop prg_rom_start).take prg_rom_size
            chr_rom := (raw.drop chr_rom_start).take chr_rom_size
            mapper := mapper
            screen_mirroring := screen_mirroring })

/-- Modelled from the spec: `Rom::read_prg_rom` is called by `src/bus.rs` and
`src/apu/dmc.rs` but its definition is missing from the tree.  Spec section 4.1:
"$8000-$FFFF Program ROM (mirrored if 16 KiB)". -/
def Rom.read_prg_rom (rom : Rom) (addr : Nat) : Nat :=
  let a := addr - 0x8000
  let a := if rom.prg_rom.length = 0x4000 ∧ 0x4000 ≤ a then a % 0x4000 else a
  rom.prg_rom.getD a 0

/-! ## CPU status register and interrupt polling (`src/cpu.rs`) -/

/-- The packed flags register (`struct Status`, `src/cpu.rs` lines 22-35),
including the private `irq_disable_pending` field. -/
structure Status where
  carry_flag : Bool
  zero_flag : Bool
  interrupt_disable_flag : Bool
  decimal_mode_flag : Bool
  break_command : Bool
  overflow_flag : Bool
  negative_flag : Bool
  irq_disable_pending : Option Bool
deriving DecidableEq, Repr

/-- `Status::default()` (all flags false, pending `None`). -/
def Status.default : Status :=
  { carry_flag := false, zero_flag := false, interrupt_disable_flag := false
    decimal_mode_flag := false, break_command := false, overflow_flag := false
    negative_flag := false, irq_disable_pending := none }

/-- `Status::to_u8` (`src/cpu.rs` lines 38-47). -/
def Status.to_u8 (s : Status) : Nat :=
  (cond s.negative_flag 1 0) <<< 7
    ||| (cond s.overflow_flag 1 0) <<< 6
    ||| 1 <<< 5
    ||| (cond s.break_command 1 0) <<< 4
    ||| (cond s.decimal_mode_flag 1 0) <<< 3
    ||| (cond s.interrupt_disable_flag 1 0) <<< 2
    ||| (cond s.zero_flag 1 0) <<< 1
    ||| (cond s.carry_flag 1 0)

/-- `Status::from_u8` (`src/cpu.rs` lines 49-60). -/
def Status.from_u8 (data : Nat) : Status :=
  { negative_flag := data &&& 0b10000000 ≠ 0
    overflow_flag := data &&& 0b01000000 ≠ 0
    break_command := data &&& 0b00010000 ≠ 0
    decimal_mode_flag := data &&& 0b00001000 ≠ 0
    interrupt_disable_flag := data &&& 0b00000100 ≠ 0
    zero_flag := data &&& 0b00000010 ≠ 0
    carry_flag := data &&& 0b00000001 ≠ 0
    irq_disable_pending := none }

/-- Interrupt descriptor (`mod interrupt` in `src/cpu.rs` lines 1919-1951). -/
structure Interrupt where
  vector_addr : Nat
  break_command : Bool
deriving DecidableEq, Repr

/-- The `NMI` interrupt constant. -/
def Interrupt.NMI : Interrupt := { vector_addr := 0xfffa, break_command := false }

/-- The `IRQ` interrupt constant. -/
def Interrupt.IRQ : Interrupt := { vector_addr := 0xfffe, break_command := false }

/-- The `BRK` interrupt constant. -/
def Interrupt.BRK : Interrupt := { vector_addr := 0xfffe, break_command := true }

/-- The status byte pushed by cycle 4 of `CPU::interrupt` (`src/cpu.rs` lines
902-906): a copy of `self.status` whose `break_command` is replaced by the
interrupt's, serialized with `to_u8`. -/
def interruptPushedStatus (s : Status) (i : Interrupt) : Nat :=
  Status.to_u8 { s with break_command := i.break_command }

/-- The status byte pushed by cycle 1 of `CPU::php` (`src/cpu.rs` lines
988-992): a copy of `self.status` with `break_command` forced true. -/
def phpPushedStatus (s : Status) : Nat :=
  Status.to_u8 { s with break_command := true }

/-- The status register produced by cycle 2 of `CPU::plp` (`src/cpu.rs` lines
1025-1028): `from_u8` of the popped byte, then `break_command` forced false. -/
def plpRestoredStatus (data : Nat) : Status :=
  { Status.from_u8 data with break_command := false }

/-- The status register produced by cycle 2 of `CPU::rti` (`src/cpu.rs` line
928): `from_u8` of the popped byte, unmodified. -/
def rtiRestoredStatus (data : Nat) : Status :=
  Status.from_u8 data

/-- The CPU state-machine tag (`enum State`, `src/cpu.rs` lines 1902-1910). -/
inductive CpuState
  | NMI (cycle : Nat)
  | IRQ (cycle : Nat)
  | Next
  | Processing (cycle : Nat)
  | Done
  | Exit
deriving DecidableEq, Repr

/-- The interrupt-relevant slice of the CPU (`status`, the two-step IRQ latch
`irq`/`irq_pending`, and the state tag) from `struct CPU` in `src/cpu.rs`. -/
structure CpuIrq where
  status : Status
  irq : Bool
  irq_pending : Bool
  state : CpuState
deriving DecidableEq, Repr

/-- The instruction-boundary interrupt poll at the end of `CPU::clock`
(`src/cpu.rs` lines 867-880): executed only when the state is `Done`; latches
the bus IRQ line one boundary behind (`irq = irq_pending; irq_pending =
poll`), then picks `NMI(0)`, `IRQ(0)` or `Next` using the CURRENT value of
`status.interrupt_disable_flag`. -/
def CpuIrq.donePoll (c : CpuIrq) (nmi : Bool) (bus_irq : Bool) : CpuIrq :=
  match c.state with
  | CpuState.Done =>
      let irq := c.irq_pending
      let irq_pending := bus_irq
      let state :=
        if nmi then CpuState.NMI 0
        else if irq ∧ ¬c.status.interrupt_disable_flag then CpuState.IRQ 0
        else CpuState.Next
      { c with irq := irq, irq_pending := irq_pending, state := state }
  | _ => c

/-- The CLI arm of `CPU::calculate` (`src/cpu.rs` lines 1849-1853): clears the
I flag immediately (the source carries a literal
"TODO: Delay flag change by 1 instruction" here). -/
def calcCLI (s : Status) : Status :=
  { s with interrupt_disable_flag := false }

/-- The SEI arm of `CPU::calculate` (`src/cpu.rs` lines 1867-1870): sets the
I flag immediately. -/
def calcSEI (s : Status) : Status :=
  { s with interrupt_disable_flag := true }

/-- One executed CLI instruction as seen by the interrupt machinery: the
implied-mode micro-sequence (`CPU::implied`, cycle 0) runs `calculate` (here
the CLI arm) and moves the state to `Done`. -/
def CpuIrq.runCLI (c : CpuIrq) : CpuIrq :=
  { c with status := calcCLI c.status, state := CpuState.Done }

/-! ## APU building blocks (`src/apu/*.rs`, module declared by `src/apu.rs`) -/

/-- Divider timer (`struct Timer`, `src/apu/timer.rs`). -/
structure ATimer where
  counter : Nat
  period : Nat
deriving DecidableEq, Repr

/-- `Timer::new`. -/
def ATimer.new : ATimer := { counter := 0, period := 0 }

/-- `Timer::tick` (`src/apu/timer.rs` lines 15-23); returns the updated timer
and the fired flag. -/
def ATimer.tick (t : ATimer) : ATimer × Bool :=
  if t.counter = 0 then ({ t with counter := t.period }, true)
  else ({ t with counter := t.counter - 1 }, false)

/-- `Timer::update_period` (`src/apu/timer.rs` lines 25-28). -/
def ATimer.update_period (t : ATimer) (period : Nat) : ATimer :=
  { t with period := period, counter := period }

/-- Waveform step counter (`struct Sequencer`, `src/apu/sequencer.rs`). -/
structure Sequencer where
  current_step : Nat
  steps : Nat
deriving DecidableEq, Repr

/-- `Sequencer::new`. -/
def Sequencer.new (steps : Nat) : Sequencer := { current_step := 0, steps := steps }

/-- `Sequencer::clock`. -/
def Sequencer.clock (s : Sequencer) : Sequencer :=
  { s with current_step := (s.current_step + 1) % s.steps }

/-- Volume envelope (`struct Envelope`, `src/apu/envelope.rs`). -/
structure Envelope where
  counter : Nat
  period : Nat
  decay_level : Nat
  start_flag : Bool
  looping : Bool
  constant_volume : Bool
deriving DecidableEq, Repr

/-- `Envelope::new`. -/
def Envelope.new : Envelope :=
  { counter := 0, period := 0, decay_level := 0, start_flag := false
    looping := false, constant_volume := false }

/-- `Envelope::clock` (`src/apu/envelope.rs` lines 44-64). -/
def Envelope.clock (e : Envelope) : Envelope :=
  if e.start_flag then
    { e with start_flag := false, decay_level := 15, counter := e.period }
  else if e.counter = 0 then
    if e.decay_level > 0 then
      { e with counter := e.period, decay_level := e.decay_level - 1 }
    else if e.looping then
      { e with counter := e.period, decay_level := 15 }
    else
      { e with counter := e.period }
  else
    { e with counter := e.counter - 1 }

/-- `Envelope::current_volume`. -/
def Envelope.current_volume (e : Envelope) : Nat :=
  if e.constant_volume then e.period else e.decay_level

/-- The `LENGTH_TABLE` of `src/apu/length_counter.rs`. -/
def LENGTH_TABLE : List Nat :=
  [10, 254, 20, 2, 40, 4, 80, 6, 160, 8, 60, 10, 14, 12, 26, 14, 12, 16, 24,
   18, 48, 20, 96, 22, 192, 24, 72, 26, 16, 28, 32, 30]

/-- Length counter with deferred load (`struct LengthCounter`,
`src/apu/length_counter.rs`). -/
structure LengthCounter where
  enabled : Bool
  halted : Bool
  counter : Nat
  new_halted : Option Bool
  new_counter : Option Nat
  prev_counter : Nat
deriving DecidableEq, Repr

/-- `LengthCounter::new`. -/
def LengthCounter.new : LengthCounter :=
  { enabled := false, halted := false, counter := 0, new_halted := none
    new_counter := none, prev_counter := 0 }

/-- `LengthCounter::clock`. -/
def LengthCounter.clock (l : LengthCounter) : LengthCounter :=
  if ¬l.halted ∧ l.counter > 0 then { l with counter := l.counter - 1 } else l

/-- `LengthCounter::set_enabled`. -/
def LengthCounter.set_enabled (l : LengthCounter) (enabled : Bool) : LengthCounter :=
  if enabled then { l with enabled := enabled }
  else { l with enabled := enabled, counter := 0 }

/-- `LengthCounter::set_length`. -/
def LengthCounter.set_length (l : LengthCounter) (length : Nat) : LengthCounter :=
  if l.enabled then
    { l with new_counter := some (LENGTH_TABLE.getD length 0), prev_counter := l.counter }
  else l

/-- `LengthCounter::set_halted`. -/
def LengthCounter.set_halted (l : LengthCounter) (halted : Bool) : LengthCounter :=
  { l with new_halted := some halted }

/-- `LengthCounter::reload` (`src/apu/length_counter.rs` lines 56-65). -/
def LengthCounter.reload (l : LengthCounter) : LengthCounter :=
  let l :=
    match l.new_counter with
    | some c =>
        if l.counter = l.prev_counter then { l with counter := c, new_counter := none }
        else { l with new_counter := none }
    | none => l
  { l with halted := (l.new_halted.getD l.halted), new_halted := none }

/-- `LengthCounter::is_active`. -/
def LengthCounter.is_active (l : LengthCounter) : Bool := l.counter > 0

/-- Triangle linear counter (`struct LinearCounter`,
`src/apu/linear_counter.rs`). -/
structure LinearCounter where
  counter : Nat
  period : Nat
  reload : Bool
  ctrl : Bool
deriving DecidableEq, Repr

/-- `LinearCounter::new`. -/
def LinearCounter.new : LinearCounter :=
  { counter := 0, period := 0, reload := false, ctrl := false }

/-- `LinearCounter::clock` (`src/apu/linear_counter.rs` lines 19-33). -/
def LinearCounter.clock (l : LinearCounter) : LinearCounter :=
  let l :=
    if l.reload then { l with counter := l.period }
    else if l.counter > 0 then { l with counter := l.counter - 1 }
    else l
  if ¬l.ctrl then { l with reload := false } else l

/-- `LinearCounter::is_active`. -/
def LinearCounter.is_active (l : LinearCounter) : Bool := l.counter > 0

/-- Pulse sweep unit (`struct Sweep`, `src/apu/sweep.rs`). -/
structure Sweep where
  mute : Bool
  enabled : Bool
  negate : Bool
  is_channel1 : Bool
  reload : Bool
  shift : Nat
  counter : Nat
  period : Nat
deriving DecidableEq, Repr

/-- `Sweep::new`. -/
def Sweep.new (is_channel1 : Bool) : Sweep :=
  { mute := false, enabled := false, negate := false, is_channel1 := is_channel1
    reload := false, shift := 0, counter := 0, period := 0 }

/-- `Sweep::target_period` (`src/apu/sweep.rs` lines 47-57): the negate path is
two `u16::wrapping_sub`s (the second subtracts the extra 1 on pulse 1). -/
def Sweep.target_period (s : Sweep) (current_period : Nat) : Nat :=
  let change_amount := current_period >>> s.shift
  if s.negate then
    wsub16 (wsub16 current_period change_amount) (cond s.is_channel1 1 0)
  else
    current_period + change_amount

/-- `Sweep::clock` (`src/apu/sweep.rs` lines 29-45): recompute mute, maybe
replace the timer period, then run the divider. -/
def Sweep.clock (s : Sweep) (timer : ATimer) : Sweep × ATimer :=
  let target := s.target_period timer.period
  let s := { s with mute := target > 0x7ff ∨ timer.period < 8 }
  let timer :=
    if s.counter = 0 ∧ s.enabled ∧ s.shift > 0 ∧ ¬s.mute then
      timer.update_period target
    else timer
  let s :=
    if s.counter = 0 ∨ s.reload then { s with counter := s.period, reload := false }
    else { s with counter := s.counter - 1 }
  (s, timer)

/-- Frame-sequencer mode (`enum Mode`, `src/apu/frame_counter.rs`). -/
inductive FCMode
  | Step4
  | Step5
deriving DecidableEq, Repr

/-- Frame-clock kind (`enum FrameType`, `src/apu/frame_counter.rs`). -/
inductive FrameType
  | None
  | Quarter
  | Half
deriving DecidableEq, Repr

/-- The frame counter (`struct FrameCounter`, `src/apu/frame_counter.rs`). -/
structure FrameCounter where
  mode : FCMode
  counter : Nat
  step : Nat
  irq_flag : Bool
  irq_enabled : Bool
  reset : Option Nat
deriving DecidableEq, Repr

/-- `FrameCounter::STEP4_CYCLES`. -/
def STEP4_CYCLES : List Nat := [7457, 14913, 22371, 29828, 29829, 29830]

/-- `FrameCounter::STEP5_CYCLES`. -/
def STEP5_CYCLES : List Nat := [7457, 14913, 22371, 29829, 37281, 37282]

/-- `FrameCounter::FRAME_STEPS`. -/
def FRAME_STEPS : List FrameType :=
  [FrameType.Quarter, FrameType.Half, FrameType.Quarter, FrameType.None,
   FrameType.Half, FrameType.None]

/-- `FrameCounter::new`. -/
def FrameCounter.new : FrameCounter :=
  { mode := FCMode.Step4, counter := 0, step := 0, irq_flag := false
    irq_enabled := true, reset := none }

/-- `FrameCounter::write_register` (`src/apu/frame_counter.rs` lines 54-76):
bit 7 selects the 5-step mode, bit 6 inhibits and clears the frame IRQ, and the
timer reset is deferred by 3 or 4 CPU cycles depending on write parity. -/
def FrameCounter.write_register (f : FrameCounter) (val : Nat) : FrameCounter :=
  let f :=
    if val &&& 0b10000000 ≠ 0 then { f with mode := FCMode.Step5 }
    else { f with mode := FCMode.Step4 }
  let f :=
    if val &&& 0b01000000 ≠ 0 then { f with irq_enabled := false, irq_flag := false }
    else { f with irq_enabled := true }
  if f.counter &&& 1 = 1 then { f with reset := some 3 }
  else { f with reset := some 4 }

/-- `FrameCounter::trigger_irq`. -/
def FrameCounter.trigger_irq (f : FrameCounter) : FrameCounter :=
  if f.irq_enabled then { f with irq_flag := true } else f

/-- `FrameCounter::tick` (`src/apu/frame_counter.rs` lines 78-119). -/
def FrameCounter.tick (f : FrameCounter) : FrameCounter × FrameType :=
  match f.reset with
  | some delay =>
      if delay = 1 then ({ f with counter := 0, step := 0, reset := none }, FrameType.None)
      else ({ f with reset := some (delay - 1) }, FrameType.None)
  | none =>
      let f := { f with counter := f.counter + 1 }
      let cycles_to_frame :=
        match f.mode with
        | FCMode.Step4 => STEP4_CYCLES.getD f.step 0
        | FCMode.Step5 => STEP5_CYCLES.getD f.step 0
      if f.counter = cycles_to_frame then
        let frame_type := FRAME_STEPS.getD f.step FrameType.None
        let f :=
          if f.mode = FCMode.Step4 ∧ f.step ≥ 3 then f.trigger_irq else f
        let f := { f with step := f.step + 1 }
        let f := if f.step > 5 then { f with counter := 0, step := 0 } else f
        (f, frame_type)
      else
        (f, FrameType.None)

/-- The `DUTY_TABLE` of `src/apu/pulse.rs` (the active, uncommented one). -/
def DUTY_TABLE : List (List Nat) :=
  [[0, 0, 0, 0, 0, 0, 0, 1],
   [0, 0, 0, 0, 0, 0, 1, 1],
   [0, 0, 0, 0, 1, 1, 1, 1],
   [1, 1, 1, 1, 1, 1, 0, 0]]

/-- Pulse channel (`struct Pulse`, `src/apu/pulse.rs`). -/
structure Pulse where
  envelope : Envelope
  sweep : Sweep
  timer : ATimer
  sequencer : Sequencer
  length_counter : LengthCounter
  duty : Nat
deriving DecidableEq, Repr

/-- `Pulse::new`. -/
def Pulse.new (is_channel1 : Bool) : Pulse :=
  { envelope := Envelope.new, sweep := Sweep.new is_channel1, timer := ATimer.new
    sequencer := Sequencer.new 8, length_counter := LengthCounter.new, duty := 0 }

/-- `Pulse::apu_tick`: tick the timer, clocking the sequencer when it fires. -/
def Pulse.apu_tick (p : Pulse) : Pulse :=
  let (t, fired) := p.timer.tick
  if fired then { p with timer := t, sequencer := p.sequencer.clock }
  else { p with timer := t }

/-- `Pulse::clock_quarter_frame`: clock the envelope. -/
def Pulse.clock_quarter_frame (p : Pulse) : Pulse :=
  { p with envelope := p.envelope.clock }

/-- `Pulse::clock_half_frame` (`src/apu/pulse.rs` lines 62-66): quarter-frame
clock (envelope), then length counter, then sweep (which may retune the timer). -/
def Pulse.clock_half_frame (p : Pulse) : Pulse :=
  let p := p.clock_quarter_frame
  let p := { p with length_counter := p.length_counter.clock }
  let (sw, t) := p.sweep.clock p.timer
  { p with sweep := sw, timer := t }

/-- `Pulse::sample`. -/
def Pulse.sample (p : Pulse) : Nat :=
  if ¬p.sweep.mute ∧ p.length_counter.is_active then
    ((DUTY_TABLE.getD p.duty []).getD p.sequencer.current_step 0) * p.envelope.current_volume
  else 0

/-- `Pulse::set_enabled`. -/
def Pulse.set_enabled (p : Pulse) (enabled : Bool) : Pulse :=
  { p with length_counter := p.length_counter.set_enabled enabled }

/-- `Pulse::is_playing`. -/
def Pulse.is_playing (p : Pulse) : Bool := p.length_counter.is_active

/-- `Pulse::write_main_register` ($4000/$4004). -/
def Pulse.write_main_register (p : Pulse) (value : Nat) : Pulse :=
  let halt_and_loop := value &&& 0b00100000 ≠ 0
  { p with duty := value >>> 6
           length_counter := (p.length_counter.set_halted halt_and_loop)
           envelope := { p.envelope with looping := halt_and_loop
                                         constant_volume := value &&& 0b00010000 ≠ 0
                                         period := value &&& 0b00001111 } }

/-- `Pulse::write_sweep_register` ($4001/$4005). -/
def Pulse.write_sweep_register (p : Pulse) (value : Nat) : Pulse :=
  { p with sweep := { p.sweep with enabled := value &&& 0b10000000 ≠ 0
                                   period := (value &&& 0b01110000) >>> 4
                                   negate := value &&& 0b00001000 ≠ 0
                                   shift := value &&& 0b00000111
                                   reload := true } }

/-- `Pulse::write_timer_lo` ($4002/$4006). -/
def Pulse.write_timer_lo (p : Pulse) (value : Nat) : Pulse :=
  { p with timer := { p.timer with period := p.timer.period &&& 0xFF00 ||| value } }

/-- `Pulse::write_timer_hi_and_length` ($4003/$4007). -/
def Pulse.write_timer_hi_and_length (p : Pulse) (value : Nat) : Pulse :=
  { p with timer := { p.timer with
                      period := p.timer.period &&& 0x00FF ||| (value &&& 0b00000111) <<< 8 }
           length_counter := p.length_counter.set_length (value >>> 3)
           sequencer := { p.sequencer with current_step := 0 }
           envelope := { p.envelope with start_flag := true } }

/-- The `TRIANGLE_WAVEFORM` table of `src/apu/triangle.rs`. -/
def TRIANGLE_WAVEFORM : List Nat :=
  [15, 14, 13, 12, 11, 10, 9, 8, 7, 6, 5, 4, 3, 2, 1, 0,
   0, 1, 2, 3, 4, 5, 6, 7, 8, 9, 10, 11, 12, 13, 14, 15]

/-- Triangle channel (`struct Triangle`, `src/apu/triangle.rs`). -/
structure Triangle where
  timer : ATimer
  length_counter : LengthCounter
  linear_counter : LinearCounter
  sequencer : Sequencer
deriving DecidableEq, Repr

/-- `Triangle::new`. -/
def Triangle.new : Triangle :=
  { timer := ATimer.new, length_counter := LengthCounter.new
    linear_counter := LinearCounter.new, sequencer := Sequencer.new 32 }

/-- `Triangle::clock` (every CPU cycle): the sequencer steps when the timer
fires, gated by both counters being active and a period of at least 2. -/
def Triangle.clock (t : Triangle) : Triangle :=
  let (tm, fired) := t.timer.tick
  if fired ∧ t.linear_counter.is_active ∧ t.length_counter.is_active ∧ t.timer.period ≥ 2 then
    { t with timer := tm, sequencer := t.sequencer.clock }
  else { t with timer := tm }

/-- `Triangle::clock_quarter_frame`: clock the linear counter. -/
def Triangle.clock_quarter_frame (t : Triangle) : Triangle :=
  { t with linear_counter := t.linear_counter.clock }

/-- `Triangle::clock_half_frame` (`src/apu/triangle.rs` lines 47-50): linear
counter then length counter. -/
def Triangle.clock_half_frame (t : Triangle) : Triangle :=
  { t with linear_counter := t.linear_counter.clock
           length_counter := t.length_counter.clock }

/-- `Triangle::sample`. -/
def Triangle.sample (t : Triangle) : Nat :=
  TRIANGLE_WAVEFORM.getD t.sequencer.current_step 0

/-- `Triangle::write_linear_counter_setup` ($4008). -/
def Triangle.write_linear_counter_setup (t : Triangle) (val : Nat) : Triangle :=
  let ctrl_and_halt := 0b10000000 &&& val ≠ 0
  { t with linear_counter := { t.linear_counter with ctrl := ctrl_and_halt
                                                     period := val >>> 1 }
           length_counter := { t.length_counter with halted := ctrl_and_halt } }

/-- `Triangle::write_timer_lo` ($400A). -/
def Triangle.write_timer_lo (t : Triangle) (val : Nat) : Triangle :=
  { t with timer := { t.timer with period := t.timer.period &&& 0xFF00 ||| val } }

/-- `Triangle::write_length_and_timer_hi` ($400B); note the source keeps all
eight bits of `val` in the shifted high part. -/
def Triangle.write_length_and_timer_hi (t : Triangle) (val : Nat) : Triangle :=
  { t with timer := { t.timer with period := u16 (t.timer.period &&& 0x00FF ||| val <<< 8) }
           length_counter := t.length_counter.set_length (val >>> 3)
           linear_counter := { t.linear_counter with reload := true } }

/-- `Triangle::set_enabled`. -/
def Triangle.set_enabled (t : Triangle) (enabled : Bool) : Triangle :=
  { t with length_counter := t.length_counter.set_enabled enabled }

/-- `Triangle::is_playing`. -/
def Triangle.is_playing (t : Triangle) : Bool := t.length_counter.is_active

/-- `Noise::TIMER_PERIOD` table. -/
def NOISE_TIMER_PERIOD : List Nat :=
  [4, 8, 16, 32, 64, 96, 128, 160, 202, 254, 380, 508, 762, 1016, 2034, 4068]

/-- Noise channel (`struct Noise`, `src/apu/noise.rs`). -/
structure Noise where
  timer : ATimer
  envelope : Envelope
  length_counter : LengthCounter
  shift_reg : Nat
  mode : Bool
deriving DecidableEq, Repr

/-- `Noise::new`. -/
def Noise.new : Noise :=
  { timer := ATimer.new, envelope := Envelope.new, length_counter := LengthCounter.new
    shift_reg := 1, mode := false }

/-- `Noise::apu_tick`: LFSR step when the timer fires. -/
def Noise.apu_tick (n : Noise) : Noise :=
  let (t, fired) := n.timer.tick
  if fired then
    let bit1 := n.shift_reg &&& 1
    let bit2 := (n.shift_reg >>> (cond n.mode 6 1)) &&& 1
    let feedback := bit1 ^^^ bit2
    { n with timer := t, shift_reg := (n.shift_reg >>> 1) ||| feedback <<< 14 }
  else { n with timer := t }

/-- `Noise::quarter_frame_clock`. -/
def Noise.quarter_frame_clock (n : Noise) : Noise :=
  { n with envelope := n.envelope.clock }

/-- `Noise::half_frame_clock` (`src/apu/noise.rs` lines 42-45): envelope then
length counter. -/
def Noise.half_frame_clock (n : Noise) : Noise :=
  { n with envelope := n.envelope.clock, length_counter := n.length_counter.clock }

/-- `Noise::write_main_register` ($400C). -/
def Noise.write_main_register (n : Noise) (val : Nat) : Noise :=
  { n with length_counter := n.length_counter.set_halted (val &&& 0b00100000 ≠ 0)
           envelope := { n.envelope with constant_volume := val &&& 0b00010000 ≠ 0
                                         period := val &&& 0x0F } }

/-- `Noise::write_mode_period_register` ($400E). -/
def Noise.write_mode_period_register (n : Noise) (val : Nat) : Noise :=
  { n with mode := val &&& 0b10000000 ≠ 0
           timer := { n.timer with period := NOISE_TIMER_PERIOD.getD (val &&& 0xF) 0 } }

/-- `Noise::write_length_register` ($400F). -/
def Noise.write_length_register (n : Noise) (val : Nat) : Noise :=
  { n with length_counter := n.length_counter.set_length (val >>> 3)
           envelope := { n.envelope with start_flag := true } }

/-- `Noise::sample`. -/
def Noise.sample (n : Noise) : Nat :=
  if n.shift_reg &&& 1 = 0 ∧ n.length_counter.is_active then n.envelope.current_volume
  else 0

/-- `Noise::set_enabled`. -/
def Noise.set_enabled (n : Noise) (enabled : Bool) : Noise :=
  { n with length_counter := n.length_counter.set_enabled enabled }

/-- `Noise::is_playing`. -/
def Noise.is_playing (n : Noise) : Bool := n.length_counter.is_active

/-- `DMC::RATE_TABLE`. -/
def DMC_RATE_TABLE : List Nat :=
  [428, 380, 340, 320, 286, 254, 226, 214, 190, 160, 142, 128, 106, 84, 72, 54]

/-- Delta-modulation channel (`struct DMC`, `src/apu/dmc.rs`); the `Rc<Rom>`
is carried as a plain `Rom` value. -/
structure DMC where
  timer : ATimer
  sample_buffer : Nat
  sample_addr : Nat
  sample_length : Nat
  current_addr : Nat
  current_length : Nat
  shift_register : Nat
  remaining_bits : Nat
  output_level : Nat
  looping : Bool
  silence : Bool
  irq_enabled : Bool
  irq_flag : Bool
  enabled : Bool
  rom : Rom
  cpu_stall : Nat
deriving DecidableEq, Repr

/-- `DMC::new`. -/
def DMC.new (rom : Rom) : DMC :=
  { timer := ATimer.new, sample_buffer := 0, sample_addr := 0, sample_length := 0
    current_addr := 0, current_length := 0, shift_register := 0, remaining_bits := 0
    output_level := 0, looping := false, silence := true, irq_enabled := false
    irq_flag := false, enabled := false, rom := rom, cpu_stall := 0 }

/-- `DMC::load_sample` (`src/apu/dmc.rs` lines 158-177). -/
def DMC.load_sample (d : DMC) : DMC :=
  let d := { d with sample_buffer := d.rom.read_prg_rom d.current_addr }
  let d :=
    if d.current_addr = 0xFFFF then { d with current_addr := 0x8000 }
    else { d with current_addr := d.current_addr + 1 }
  let d := { d with current_length := d.current_length - 1 }
  if d.current_length = 0 then
    if d.looping then
      { d with current_addr := d.sample_addr, current_length := d.sample_length }
    else if d.irq_enabled then { d with irq_flag := true }
    else d
  else d

/-- `DMC::clock_shifter` (`src/apu/dmc.rs` lines 186-212). -/
def DMC.clock_shifter (d : DMC) : DMC :=
  let d :=
    if ¬d.silence then
      if d.shift_register &&& 1 = 1 ∧ d.output_level ≤ 125 then
        { d with output_level := d.output_level + 2 }
      else if d.shift_register &&& 1 = 0 ∧ d.output_level ≥ 2 then
        { d with output_level := d.output_level - 2 }
      else d
    else d
  let d := { d with shift_register := d.shift_register >>> 1 }
  let d :=
    if d.remaining_bits > 0 then { d with remaining_bits := d.remaining_bits - 1 } else d
  if d.remaining_bits = 0 then
    let d := { d with remaining_bits := 8 }
    if d.sample_buffer = 0 then { d with silence := true }
    else { d with silence := false, shift_register := d.sample_buffer, sample_buffer := 0 }
  else d

/-- `DMC::apu_tick` (`src/apu/dmc.rs` lines 65-82). -/
def DMC.apu_tick (d : DMC) : DMC :=
  if ¬d.enabled then d
  else
    let d :=
      if d.sample_buffer = 0 ∧ d.current_length > 0 then
        ({ d with cpu_stall := d.cpu_stall + 4 } : DMC).load_sample
      else d
    let (t, fired) := d.timer.tick
    let d := { d with timer := t }
    if fired then d.clock_shifter else d

/-- `DMC::write_flags_rate` ($4010). -/
def DMC.write_flags_rate (d : DMC) (val : Nat) : DMC :=
  let d := { d with irq_enabled := val &&& 0b10000000 ≠ 0 }
  let d := if ¬d.irq_enabled then { d with irq_flag := false } else d
  { d with looping := val &&& 0b01000000 ≠ 0
           timer := { d.timer with period := (DMC_RATE_TABLE.getD (val &&& 0b00001111) 0) / 2 } }

/-- `DMC::write_direct_load` ($4011). -/
def DMC.write_direct_load (d : DMC) (val : Nat) : DMC :=
  { d with output_level := val &&& 0b01111111 }

/-- `DMC::write_sample_address` ($4012). -/
def DMC.write_sample_address (d : DMC) (val : Nat) : DMC :=
  { d with sample_addr := val * 64 + 0xC000 }

/-- `DMC::write_sample_length` ($4013). -/
def DMC.write_sample_length (d : DMC) (val : Nat) : DMC :=
  { d with sample_length := val * 16 + 1 }

/-- `DMC::set_enabled` ($4015 bit 4). -/
def DMC.set_enabled (d : DMC) (enabled : Bool) : DMC :=
  let d := { d with enabled := enabled, irq_flag := false }
  if ¬enabled then { d with current_length := 0 }
  else if d.current_length = 0 then
    { d with current_addr := d.sample_addr, current_length := d.sample_length }
  else d

/-- `DMC::is_playing`. -/
def DMC.is_playing (d : DMC) : Bool := d.current_length > 0

/-! ## APU (`src/apu.rs`, the revision with the `cpu_stall` channel used by
`src/bus.rs`).

The floating-point output pipeline (`filter_chain`, `sample_period`,
`sample_counter`, the `buffer` of i16 samples, and `APU::sample` which is the
only code touching them) is outside the shallow embedding: floating point is
not modelled, and none of those four fields is read by any other APU code. -/
structure APU where
  pulse1 : Pulse
  pulse2 : Pulse
  triangle : Triangle
  noise : Noise
  dmc : DMC
  frame_counter : FrameCounter
  cycles : Nat
  cpu_stall : Nat
deriving DecidableEq, Repr

/-- `APU::new` (non-floating-point fields). -/
def APU.new (rom : Rom) : APU :=
  { pulse1 := Pulse.new true, pulse2 := Pulse.new false, triangle := Triangle.new
    noise := Noise.new, dmc := DMC.new rom, frame_counter := FrameCounter.new
    cycles := 0, cpu_stall := 0 }

/-- `APU::clock_quarter_frame`. -/
def APU.clock_quarter_frame (a : APU) : APU :=
  { a with pulse1 := a.pulse1.clock_quarter_frame
           pulse2 := a.pulse2.clock_quarter_frame
           triangle := a.triangle.clock_quarter_frame
           noise := a.noise.quarter_frame_clock }

/-- `APU::clock_half_frame`. -/
def APU.clock_half_frame (a : APU) : APU :=
  { a with pulse1 := a.pulse1.clock_half_frame
           pulse2 := a.pulse2.clock_half_frame
           triangle := a.triangle.clock_half_frame
           noise := a.noise.half_frame_clock }

/-- `APU::tick` (`src/apu.rs` lines 62-93), minus the floating-point
`self.sample()` call (which touches only the omitted audio-output fields). -/
def APU.tick (a : APU) : APU :=
  let a := { a with cycles := a.cycles + 1 }
  let a := { a with triangle := a.triangle.clock }
  let a :=
    if a.cycles % 2 = 1 then
      { a with pulse1 := a.pulse1.apu_tick, pulse2 := a.pulse2.apu_tick
               noise := a.noise.apu_tick, dmc := a.dmc.apu_tick }
    else a
  let (fc, frame) := a.frame_counter.tick
  let a := { a with frame_counter := fc }
  let a :=
    match frame with
    | FrameType.Quarter => a.clock_quarter_frame
    | FrameType.Half => a.clock_half_frame
    | FrameType.None => a
  let a := { a with pulse1 := { a.pulse1 with length_counter := a.pulse1.length_counter.reload }
                    pulse2 := { a.pulse2 with length_counter := a.pulse2.length_counter.reload }
                    triangle := { a.triangle with length_counter := a.triangle.length_counter.reload }
                    noise := { a.noise with length_counter := a.noise.length_counter.reload } }
  { a with cpu_stall := a.dmc.cpu_stall, dmc := { a.dmc with cpu_stall := 0 } }

/-- `APU::write_register` (`src/apu.rs` lines 141-186).  Addresses outside the
match panic in the source; the default arm here returns the state unchanged
and is never exercised by the embedded bus. -/
def APU.write_register (a : APU) (addr : Nat) (val : Nat) : APU :=
  if addr = 0x4000 then { a with pulse1 := a.pulse1.write_main_register val }
  else if addr = 0x4001 then { a with pulse1 := a.pulse1.write_sweep_register val }
  else if addr = 0x4002 then { a with pulse1 := a.pulse1.write_timer_lo val }
  else if addr = 0x4003 then { a with pulse1 := a.pulse1.write_timer_hi_and_length val }
  else if addr = 0x4004 then { a with pulse2 := a.pulse2.write_main_register val }
  else if addr = 0x4005 then { a with pulse2 := a.pulse2.write_sweep_register val }
  else if addr = 0x4006 then { a with pulse2 := a.pulse2.write_timer_lo val }
  else if addr = 0x4007 then { a with pulse2 := a.pulse2.write_timer_hi_and_length val }
  else if addr = 0x4008 then { a with triangle := a.triangle.write_linear_counter_setup val }
  else if addr = 0x4009 then a
  else if addr = 0x400A then { a with triangle := a.triangle.write_timer_lo val }
  else if addr = 0x400B then { a with triangle := a.triangle.write_length_and_timer_hi val }
  else if addr = 0x400C then { a with noise := a.noise.write_main_register val }
  else if addr = 0x400D then a
  else if addr = 0x400E then { a with noise := a.noise.write_mode_period_register val }
  else if addr = 0x400F then { a with noise := a.noise.write_length_register val }
  else if addr = 0x4010 then { a with dmc := a.dmc.write_flags_rate val }
  else if addr = 0x4011 then { a with dmc := a.dmc.write_direct_load val }
  else if addr = 0x4012 then { a with dmc := a.dmc.write_sample_address val }
  else if addr = 0x4013 then { a with dmc := a.dmc.write_sample_length val }
  else if addr = 0x4015 then
    { a with pulse1 := a.pulse1.set_enabled (val &&& 0b00000001 ≠ 0)
             pulse2 := a.pulse2.set_enabled (val &&& 0b00000010 ≠ 0)
             triangle := a.triangle.set_enabled (val &&& 0b00000100 ≠ 0)
             noise := a.noise.set_enabled (val &&& 0b00001000 ≠ 0)
             dmc := a.dmc.set_enabled (val &&& 0b00010000 ≠ 0) }
  else if addr = 0x4017 then
    let a := { a with frame_counter := a.frame_counter.write_register val }
    if val &&& 0b10000000 ≠ 0 then a.clock_half_frame else a
  else a

/-- `APU::read_register` (`src/apu.rs` lines 188-207): the $4015 status byte,
clearing the frame IRQ flag.  Other addresses panic in the source; the default
arm returns 0 unchanged and is never exercised by the embedded bus. -/
def APU.read_register (a : APU) (addr : Nat) : Nat × APU :=
  if addr = 0x4015 then
    let result :=
      (cond a.dmc.irq_flag 1 0) <<< 7
        ||| (cond a.frame_counter.irq_flag 1 0) <<< 6
        ||| (cond a.dmc.is_playing 1 0) <<< 4
        ||| (cond a.noise.is_playing 1 0) <<< 3
        ||| (cond a.triangle.is_playing 1 0) <<< 2
        ||| (cond a.pulse2.is_playing 1 0) <<< 1
        ||| (cond a.pulse1.is_playing 1 0)
    (result, { a with frame_counter := { a.frame_counter with irq_flag := false } })
  else (0, a)

/-- `<APU as Inspector>::inspect` at $4015 (`src/apu.rs` lines 224-239): the
same status byte with no side effect.  `Bus::get_state_at` reaches this
through the absent `APU::get_status`; this pure reader is the in-tree
implementation of that read. -/
def APU.get_status (a : APU) (addr : Nat) : Nat :=
  if addr = 0x4015 then
    (cond a.dmc.irq_flag 1 0) <<< 7
      ||| (cond a.frame_counter.irq_flag 1 0) <<< 6
      ||| (cond a.dmc.is_playing 1 0) <<< 4
      ||| (cond a.noise.is_playing 1 0) <<< 3
      ||| (cond a.triangle.is_playing 1 0) <<< 2
      ||| (cond a.pulse2.is_playing 1 0) <<< 1
      ||| (cond a.pulse1.is_playing 1 0)
  else 0xFF

/-- `APU::poll_irq_status`. -/
def APU.poll_irq_status (a : APU) : Bool :=
  a.frame_counter.irq_flag ∨ a.dmc.irq_flag

/-! ## PPU (`src/ppu.rs`, `src/ppu/registers.rs`, `src/ppu/frame.rs`)

Register files (`PPUCTRL`, `PPUMASK`, `PPUSTATUS`) are `bitflags` u8 wrappers
in the source; they are carried here as plain `Nat` bytes with the flag
constants below. -/

/-- `PPUCTRL::VRAM_ADD_INCREMENT` selector (`registers.rs`): 32 when bit 2 is
set, else 1. -/
def ctrlVramAddrIncrement (c : Nat) : Nat :=
  if c &&& 0b00000100 ≠ 0 then 32 else 1

/-- `PPUCTRL::sprite_pattern_addr`. -/
def ctrlSpritePatternAddr (c : Nat) : Nat :=
  if c &&& 0b00001000 ≠ 0 then 0x1000 else 0

/-- `PPUCTRL::background_pattern_addr`. -/
def ctrlBackgroundPatternAddr (c : Nat) : Nat :=
  if c &&& 0b00010000 ≠ 0 then 0x1000 else 0

/-- `PPUCTRL::generate_vblank_nmi` (bit 7). -/
def ctrlGenerateVblankNmi (c : Nat) : Bool :=
  c &&& 0b10000000 ≠ 0

/-- `PPUMASK::LEFTMOST_SP`. -/
def MASK_LEFTMOST_SP : Nat := 0b00000010

/-- `PPUMASK::LEFTMOST_BG`. -/
def MASK_LEFTMOST_BG : Nat := 0b00000100

/-- `PPUMASK::SHOW_BACKGROUND`. -/
def MASK_SHOW_BACKGROUND : Nat := 0b00001000

/-- `PPUMASK::SHOW_SPRITES`. -/
def MASK_SHOW_SPRITES : Nat := 0b00010000

/-- `bitflags` `contains`: all bits of `f` present in `m`. -/
def flagsContains (m f : Nat) : Bool := m &&& f = f

/-- `bitflags` `intersects`: some bit of `f` present in `m`. -/
def flagsIntersects (m f : Nat) : Bool := m &&& f ≠ 0

/-- `PPUSTATUS::SPRITE_OVERFLOW`. -/
def STATUS_SPRITE_OVERFLOW : Nat := 0b00100000

/-- `PPUSTATUS::SPRITE_ZERO_HIT`. -/
def STATUS_SPRITE_ZERO_HIT : Nat := 0b01000000

/-- `PPUSTATUS::VBLANK_STARTED`. -/
def STATUS_VBLANK_STARTED : Nat := 0b10000000

/-- `bitflags` `set` on a u8 flags byte. -/
def flagsSet (m f : Nat) (b : Bool) : Nat :=
  if b then m ||| f else m &&& (0xFF ^^^ f)

/-- Modelled from the spec: the 64-entry system palette
(`src/ppu/palette.rs::SYSTEM_PALETTE`) is absent from the tree.  Only the RGB
expansion written into `Frame::buffer` uses it; no claim constrains those RGB
bytes (all claims read the indexed `pixel_buffer` or other PPU state), so its
entries are represented by a fixed placeholder triple. -/
def SYSTEM_PALETTE (_idx : Nat) : Nat × Nat × Nat := (0, 0, 0)

/-- Output frame (`struct Frame`, `src/ppu/frame.rs`): the RGB `buffer` and
the color-index `pixel_buffer`, both byte arrays carried as functions. -/
structure Frame where
  buffer : Nat → Nat
  pixel_buffer : Nat → Nat

/-- `Frame::new` (all zero). -/
def Frame.new : Frame := { buffer := fun _ => 0, pixel_buffer := fun _ => 0 }

/-- `Frame::set_pixel` (`src/ppu/frame.rs` lines 20-31); WIDTH = 256,
HIGHT = 240, guard `base + 2 < buffer.len()` with len = 256*240*3. -/
def Frame.set_pixel (f : Frame) (x y color : Nat) : Frame :=
  let f := { f with pixel_buffer := Function.update f.pixel_buffer (y * 256 + x) color }
  let rgb := SYSTEM_PALETTE color
  let base := y * 3 * 256 + x * 3
  if base + 2 < 256 * 240 * 3 then
    { f with buffer := Function.update (Function.update (Function.update f.buffer
        base rgb.1) (base + 1) rgb.2.1) (base + 2) rgb.2.2 }
  else f

/-- Secondary-OAM entry (`struct Sprite`, `src/ppu.rs` lines 11-20). -/
structure Sprite where
  x : Nat
  y : Nat
  flip_vertical : Bool
  flip_horizontal : Bool
  tile_idx : Nat
  palette_idx : Nat
  is_zero : Bool
deriving DecidableEq, Repr

/-- The PPU (`struct PPU`, `src/ppu.rs` lines 22-64).  Byte arrays are carried
as functions `Nat → Nat`; `chr_rom` stays a list because the source branches
on `chr_rom.is_empty()`. -/
structure PPU where
  nmi_interrupt : Option Nat
  chr_rom : List Nat
  chr_ram : Nat → Nat
  vram : Nat → Nat
  palette_table : Nat → Nat
  mirroring : Mirroring
  ctrl : Nat
  mask : Nat
  pending_mask : Option (Nat × Nat)
  status : Nat
  oam_addr : Nat
  oam_data : Nat → Nat
  secandary_oam : List Sprite
  data_buffer : Nat
  scanline : Nat
  cycles : Nat
  open_bus : Nat
  odd_frame : Bool
  suppress_vblank : Bool
  frame : Frame
  v : Nat
  t : Nat
  x : Nat
  t_x : Nat
  w : Bool

/-- `PPU::new`. -/
def PPU.new (chr_rom : List Nat) (mirroring : Mirroring) : PPU :=
  { chr_rom := chr_rom, chr_ram := fun _ => 0, palette_table := fun _ => 0
    vram := fun _ => 0, oam_data := fun _ => 0, secandary_oam := []
    mirroring := mirroring, ctrl := 0, mask := 0, pending_mask := none
    status := 0, oam_addr := 0, data_buffer := 0, scanline := 0, cycles := 0
    nmi_interrupt := none, open_bus := 0, odd_frame := false
    suppress_vblank := false, frame := Frame.new, v := 0, t := 0, x := 0
    t_x := 0, w := false }

/-- `PPU::mirror_vram_addr` (`src/ppu.rs` lines 97-118). -/
def PPU.mirror_vram_addr (p : PPU) (addr : Nat) : Nat :=
  let addr := addr &&& 0b0010111111111111
  let addr := addr - 0x2000
  let idx := addr / 0x400
  match p.mirroring, idx with
  | Mirroring.Horizontal, 1 => addr - 0x400
  | Mirroring.Horizontal, 2 => addr - 0x400
  | Mirroring.Horizontal, 3 => addr - 0x800
  | Mirroring.Vertical, 2 => addr - 0x800
  | Mirroring.Vertical, 3 => addr - 0x800
  | _, _ => addr

/-- `PPU::mem_read` (`src/ppu.rs` lines 536-561).  Addresses at/above $4000
panic in the source ("unexpected access to mirrored space"); every embedded
caller masks with `& 0x3FFF` or computes addresses below $3000, so the default
arm (0) is unreachable from them. -/
def PPU.mem_read (p : PPU) (addr : Nat) : Nat :=
  if addr ≤ 0x1fff then
    if p.chr_rom.isEmpty then p.chr_ram addr else p.chr_rom.getD addr 0
  else if addr ≤ 0x3eff then p.vram (p.mirror_vram_addr addr)
  else if addr ≤ 0x3fff then
    let addr_mirrored := addr &&& 0x1f
    let addr_mirrored :=
      if addr_mirrored = 0x10 ∨ addr_mirrored = 0x14 ∨ addr_mirrored = 0x18 ∨
         addr_mirrored = 0x1c then addr_mirrored - 0x10
      else addr_mirrored
    p.palette_table addr_mirrored
  else 0

/-- `PPU::mem_write` (`src/ppu.rs` lines 563-591); the CHR-ROM branch only
logs, and addresses at/above $4000 panic (unreachable from embedded callers). -/
def PPU.mem_write (p : PPU) (addr data : Nat) : PPU :=
  if addr ≤ 0x1fff then
    if p.chr_rom.isEmpty then { p with chr_ram := Function.update p.chr_ram addr data }
    else p
  else if addr ≤ 0x3eff then
    { p with vram := Function.update p.vram (p.mirror_vram_addr addr) data }
  else if addr ≤ 0x3fff then
    let addr_mirrored := addr &&& 0x1f
    let addr_mirrored :=
      if addr_mirrored = 0x10 ∨ addr_mirrored = 0x14 ∨ addr_mirrored = 0x18 ∨
         addr_mirrored = 0x1c then addr_mirrored - 0x10
      else addr_mirrored
    { p with palette_table := Function.update p.palette_table addr_mirrored data }
  else p

/-- `PPU::write_to_ctrl` (`src/ppu.rs` lines 120-138). -/
def PPU.write_to_ctrl (p : PPU) (value : Nat) : PPU :=
  let before_nmi_status := ctrlGenerateVblankNmi p.ctrl
  let p := { p with ctrl := u8 value }
  let p :=
    if ¬before_nmi_status ∧ ctrlGenerateVblankNmi p.ctrl ∧
       (flagsContains p.status STATUS_VBLANK_STARTED ∧ p.scanline ≠ 261) then
      { p with nmi_interrupt := some 1 }
    else p
  if ¬ctrlGenerateVblankNmi p.ctrl ∧ p.scanline = 241 ∧ p.cycles ≤ 2 then
    { p with nmi_interrupt := none }
  else p

/-- `PPU::write_to_mask`: queue the byte behind the 2-dot delay. -/
def PPU.write_to_mask (p : PPU) (value : Nat) : PPU :=
  { p with pending_mask := some (2, value) }

/-- `PPU::update_mask` (`src/ppu.rs` lines 146-155). -/
def PPU.update_mask (p : PPU) : PPU :=
  match p.pending_mask with
  | some (delay, value) =>
      if delay = 0 then { p with mask := u8 value, pending_mask := none }
      else { p with pending_mask := some (delay - 1, value) }
  | none => p

/-- `PPU::write_to_oam_addr`. -/
def PPU.write_to_oam_addr (p : PPU) (value : Nat) : PPU :=
  { p with oam_addr := value }

/-- `PPU::write_to_oam_data`. -/
def PPU.write_to_oam_data (p : PPU) (value : Nat) : PPU :=
  { p with oam_data := Function.update p.oam_data p.oam_addr value
           oam_addr := wadd8 p.oam_addr 1 }

/-- `PPU::read_oam_data` (no side effect). -/
def PPU.read_oam_data (p : PPU) : Nat :=
  p.oam_data p.oam_addr

/-- `PPU::write_oam_dma` (`src/ppu.rs` lines 170-175): copy the 256-byte
buffer into OAM starting at the current `oam_addr`, wrapping. -/
def PPU.write_oam_dma (p : PPU) (data : List Nat) : PPU :=
  data.foldl
    (fun p x =>
      { p with oam_data := Function.update p.oam_data p.oam_addr x
               oam_addr := wadd8 p.oam_addr 1 })
    p

/-- `PPU::read_status` (`src/ppu.rs` lines 177-198): value-then-clear with the
vblank race special cases. -/
def PPU.read_status (p : PPU) : Nat × PPU :=
  let value := p.status
  let p := { p with status := flagsSet p.status STATUS_VBLANK_STARTED false }
  if p.scanline = 241 ∧ p.cycles = 0 then
    (0, { p with suppress_vblank := true, nmi_interrupt := none })
  else if p.scanline = 241 ∧ (p.cycles = 1 ∨ p.cycles = 2) then
    (value, { p with nmi_interrupt := none })
  else
    (value, p)

/-- `PPU::get_tile`: the 16 pattern bytes of one tile. -/
def PPU.get_tile (p : PPU) (bank_addr idx : Nat) : List Nat :=
  (List.range 16).map (fun i => p.mem_read (bank_addr + idx * 16 + i))

/-- `PPU::get_bg_palette`. -/
def PPU.get_bg_palette (p : PPU) (attr tile_x tile_y : Nat) : List Nat :=
  let palette_idx :=
    match tile_x % 4 / 2, tile_y % 4 / 2 with
    | 0, 0 => attr &&& 0b11
    | 1, 0 => (attr >>> 2) &&& 0b11
    | 0, 1 => (attr >>> 4) &&& 0b11
    | 1, 1 => (attr >>> 6) &&& 0b11
    | _, _ => 0
  let palette_start := 1 + palette_idx * 4
  [p.palette_table 0, p.palette_table palette_start,
   p.palette_table (palette_start + 1), p.palette_table (palette_start + 2)]

/-- `PPU::get_sp_palette`. -/
def PPU.get_sp_palette (p : PPU) (idx : Nat) : List Nat :=
  let start := 0x11 + idx * 4
  [0, p.palette_table start, p.palette_table (start + 1), p.palette_table (start + 2)]

/-- `PPU::get_color_idx` (`src/ppu.rs` lines 240-257); the u8 left shift
truncates to 8 bits before the bit-7 test. -/
def getColorIdx (tile : List Nat) (offset_x offset_y : Nat) : Nat :=
  let lo := u8 (tile.getD offset_y 0 <<< offset_x) &&& 0b10000000 ≠ 0
  let hi := u8 (tile.getD (offset_y + 8) 0 <<< offset_x) &&& 0b10000000 ≠ 0
  (cond hi 1 0) <<< 1 ||| (cond lo 1 0)

/-- `tile_x` accessor on loopy `v`. -/
def PPU.tile_x (p : PPU) : Nat := p.v &&& 0x1F

/-- `tile_y` accessor on loopy `v`. -/
def PPU.tile_y (p : PPU) : Nat := (p.v &&& 0x03E0) >>> 5

/-- `fine_x` accessor. -/
def PPU.fine_x (p : PPU) : Nat := p.x

/-- `fine_y` accessor on loopy `v`. -/
def PPU.fine_y (p : PPU) : Nat := (p.v &&& 0x7000) >>> 12

/-- `PPU::inc_tile_x` (coarse-X increment with nametable switch). -/
def PPU.inc_tile_x (p : PPU) : PPU :=
  if p.v &&& 0x001F = 31 then
    { p with v := (p.v &&& (0xFFFF ^^^ 0x001F)) ^^^ 0x400 }
  else
    { p with v := p.v + 1 }

/-- `PPU::inc_x` (fine-X then coarse-X). -/
def PPU.inc_x (p : PPU) : PPU :=
  if p.x = 7 then ({ p with x := 0 } : PPU).inc_tile_x
  else { p with x := p.x + 1 }

/-- `PPU::inc_y` (`src/ppu.rs` lines 508-534). -/
def PPU.inc_y (p : PPU) : PPU :=
  if p.v &&& 0x7000 ≠ 0x7000 then
    { p with v := p.v + 0x1000 }
  else
    let v := p.v &&& (0xFFFF ^^^ 0x7000)
    let tile_y := (v &&& 0x03E0) >>> 5
    let (tile_y, v) :=
      if tile_y = 29 then (0, v ^^^ 0x0800)
      else if tile_y = 31 then (0, v)
      else (tile_y + 1, v)
    { p with v := (v &&& (0xFFFF ^^^ 0x03E0)) ||| (tile_y <<< 5) }

/-- `PPU::render_bg_dot` (`src/ppu.rs` lines 260-276): paint the background
pixel for the dot and report whether it is opaque. -/
def PPU.render_bg_dot (p : PPU) (x y : Nat) : PPU × Bool :=
  let tile_addr := 0x2000 ||| (p.v &&& 0x0FFF)
  let tile_idx := p.mem_read tile_addr
  let tile := p.get_tile (ctrlBackgroundPatternAddr p.ctrl) tile_idx
  let attr := p.mem_read (0x23C0 ||| (p.v &&& 0x0C00) |||
    ((p.v >>> 4) &&& 0x38) ||| ((p.v >>> 2) &&& 0x07))
  let palette := p.get_bg_palette attr p.tile_x p.tile_y
  let color_idx := getColorIdx tile p.fine_x p.fine_y
  let color := palette.getD color_idx 0
  ({ p with frame := p.frame.set_pixel x y color }, color_idx ≠ 0x00)

/-- `PPU::render_sp_dot` (`src/ppu.rs` lines 280-315): walk the secondary OAM
in reverse, painting every opaque covering sprite pixel; report sprite-zero
contribution.  (The `y - sprite.y` subtractions are guarded in every state
`tick` produces; `Nat` subtraction truncates where the source would panic in
debug builds.) -/
def PPU.render_sp_dot (p : PPU) (x y : Nat) : PPU × Bool :=
  p.secandary_oam.reverse.foldl
    (fun (acc : PPU × Bool) sprite =>
      let (p, sprite_0_hit) := acc
      if sprite.x ≤ x ∧ x - sprite.x < 8 then
        let tile := p.get_tile (ctrlSpritePatternAddr p.ctrl) (u8 sprite.tile_idx)
        let palette := p.get_sp_palette sprite.palette_idx
        let offset_x :=
          if sprite.flip_horizontal then (((x - sprite.x : Nat) : Int) - 7).natAbs
          else x - sprite.x
        let offset_y :=
          if sprite.flip_vertical then (((y - sprite.y : Nat) : Int) - 7).natAbs
          else y - sprite.y
        let color_idx := getColorIdx tile offset_x offset_y
        let color := palette.getD color_idx 0
        if color_idx ≠ 0x00 then
          ({ p with frame := p.frame.set_pixel x y color },
           sprite_0_hit ∨ sprite.is_zero)
        else (p, sprite_0_hit)
      else (p, sprite_0_hit))
    (p, false)

/-- The loop body chain of `PPU::find_sprites_on` (`src/ppu.rs` lines
317-338): scan OAM four bytes at a time, stopping at eight entries. -/
def findSpritesGo (oam : Nat → Nat) (line : Nat) :
    List Nat → List Sprite → List Sprite
  | [], sec => sec
  | i :: rest, sec =>
      let y := oam i
      if y ≤ line ∧ line - y < 8 then
        if sec.length = 8 then sec
        else
          findSpritesGo oam line rest (sec ++
            [{ x := oam (i + 3), y := y + 1, tile_idx := oam (i + 1)
               flip_vertical := (oam (i + 2)) >>> 7 &&& 1 = 1
               flip_horizontal := (oam (i + 2)) >>> 6 &&& 1 = 1
               palette_idx := (oam (i + 2)) &&& 0b11
               is_zero := i = 0 }])
      else findSpritesGo oam line rest sec

/-- `PPU::find_sprites_on`. -/
def PPU.find_sprites_on (p : PPU) (line : Nat) : PPU :=
  { p with secandary_oam :=
      findSpritesGo p.oam_data line ((List.range 64).map (· * 4)) p.secandary_oam }

/-- `PPU::should_skip_last_tick`. -/
def PPU.should_skip_last_tick (p : PPU) : Bool :=
  p.scanline = 261 ∧ p.odd_frame ∧ flagsContains p.mask MASK_SHOW_BACKGROUND

/-- `PPU::tick` (`src/ppu.rs` lines 340-453): one dot of the scanline
schedule; returns the updated PPU and the frame-ready flag. -/
def PPU.tick (p : PPU) : PPU × Bool :=
  let p := p.update_mask
  let (p, frame_ready) :=
    if p.scanline ≤ 239 ∧ p.cycles = 0 then
      let p := { p with secandary_oam := [] }
      let p := if p.scanline ≠ 0 then p.find_sprites_on (p.scanline - 1) else p
      (p, false)
    else if p.scanline ≤ 239 ∧ 1 ≤ p.cycles ∧ p.cycles ≤ 256 then
      let (p, _bg_rendered) :=
        if flagsContains p.mask MASK_SHOW_BACKGROUND then
          p.render_bg_dot (p.cycles - 1) p.scanline
        else (p, false)
      let (p, sp_rendered) :=
        if flagsContains p.mask MASK_SHOW_SPRITES then
          p.render_sp_dot (p.cycles - 1) p.scanline
        else (p, false)
      let p :=
        if sp_rendered ∧
           flagsContains p.mask (MASK_SHOW_SPRITES ||| MASK_SHOW_BACKGROUND) ∧
           (¬(1 ≤ p.cycles ∧ p.cycles ≤ 8) ∨
             flagsContains p.mask (MASK_LEFTMOST_BG ||| MASK_LEFTMOST_SP)) ∧
           p.cycles ≠ 256 then
          { p with status := flagsSet p.status STATUS_SPRITE_ZERO_HIT true }
        else p
      let p :=
        if flagsIntersects p.mask (MASK_SHOW_BACKGROUND ||| MASK_SHOW_SPRITES) then
          let p := p.inc_x
          if p.cycles = 256 then p.inc_y else p
        else p
      (p, false)
    else if p.scanline ≤ 239 ∧ p.cycles = 257 then
      let p :=
        if flagsIntersects p.mask (MASK_SHOW_BACKGROUND ||| MASK_SHOW_SPRITES) then
          let mask := 0b000010000011111
          { p with v := p.v &&& (0xFFFF ^^^ mask) ||| p.t &&& mask, x := p.t_x }
        else p
      (p, false)
    else if p.scanline = 240 ∧ p.cycles = 340 then
      let p :=
        if ctrlGenerateVblankNmi p.ctrl then { p with nmi_interrupt := some 1 } else p
      (p, true)
    else if p.scanline = 241 ∧ p.cycles = 0 then
      let p :=
        if ¬p.suppress_vblank then
          { p with status := flagsSet p.status STATUS_VBLANK_STARTED true }
        else p
      ({ p with suppress_vblank := false }, false)
    else if 241 ≤ p.scanline ∧ p.scanline ≤ 260 then (p, false)
    else if p.scanline = 261 ∧ p.cycles = 0 then
      let p := { p with status := flagsSet p.status STATUS_VBLANK_STARTED false }
      let p := { p with status := flagsSet p.status STATUS_SPRITE_ZERO_HIT false }
      ({ p with status := flagsSet p.status STATUS_SPRITE_OVERFLOW false }, false)
    else if p.scanline = 261 ∧ p.cycles = 257 then (p, false)
    else if p.scanline = 261 ∧ 280 ≤ p.cycles ∧ p.cycles ≤ 304 then
      let p :=
        if flagsIntersects p.mask (MASK_SHOW_BACKGROUND ||| MASK_SHOW_SPRITES) then
          let mask := 0b111101111100000
          { p with v := p.v &&& (0xFFFF ^^^ mask) ||| p.t &&& mask }
        else p
      (p, false)
    else (p, false)
  let p := { p with cycles := p.cycles + 1 }
  let p :=
    if p.cycles > 340 ∨ (p.cycles = 340 ∧ p.should_skip_last_tick) then
      { p with cycles := 0, scanline := p.scanline + 1 }
    else p
  let p :=
    if p.scanline > 261 then { p with scanline := 0, odd_frame := ¬p.odd_frame }
    else p
  (p, frame_ready)

/-- `PPU::read_port` (`src/ppu.rs` lines 593-615): the CPU-visible register
reads, including the open-bus arm for the write-only ports and the buffered
$2007 read.  (`self.v += increment` wraps here as the u16 addition it is in
release builds; the source carries the `wrapping_add` variant in a comment.) -/
def PPU.read_port (p : PPU) (addr : Nat) : Nat × PPU :=
  if addr = 0x2000 ∨ addr = 0x2001 ∨ addr = 0x2003 ∨ addr = 0x2005 ∨ addr = 0x2006 then
    (p.open_bus, p)
  else if addr = 0x2002 then
    ({ p with w := false } : PPU).read_status
  else if addr = 0x2004 then
    let data := p.read_oam_data
    (data, { p with open_bus := data })
  else if addr = 0x2007 then
    let result := p.data_buffer
    let p := { p with data_buffer := p.mem_read (p.v &&& 0x3FFF) }
    let p := { p with v := u16 (p.v + ctrlVramAddrIncrement p.ctrl) }
    (result, p)
  else (0, p)

/-- `PPU::write_to_port` (`src/ppu.rs` lines 617-683): the CPU-visible
register writes, including the loopy t/v/x/w updates. -/
def PPU.write_to_port (p : PPU) (addr data : Nat) : PPU :=
  if addr = 0x2000 then
    let p := { p with t := p.t &&& 0b111001111111111 ||| (data &&& 0b11) <<< 10 }
    let p := p.write_to_ctrl data
    { p with open_bus := data }
  else if addr = 0x2001 then
    p.write_to_mask data
  else if addr = 0x2002 then
    { p with open_bus := data }
  else if addr = 0x2003 then
    p.write_to_oam_addr data
  else if addr = 0x2004 then
    p.write_to_oam_data data
  else if addr = 0x2005 then
    let p :=
      if p.w then
        let fine_y := data &&& 0b111
        let tile_y := (data &&& 0b11111000) >>> 3
        { p with t := (p.t &&& 0b000110000011111) ||| fine_y <<< 12 ||| tile_y <<< 5 }
      else
        let tile_x := (data &&& 0b11111000) >>> 3
        let fine_x := data &&& 0b111
        { p with t := p.t &&& 0b111111111100000 ||| tile_x, t_x := fine_x }
    { p with w := ¬p.w }
  else if addr = 0x2006 then
    let p :=
      if ¬p.w then
        let hi_6bits := data &&& 0b00111111
        { p with t := p.t &&& 0b0000000011111111 ||| hi_6bits <<< 8 }
      else
        let p := { p with t := p.t &&& 0b1111111100000000 ||| data }
        { p with v := p.t }
    { p with w := ¬p.w }
  else if addr = 0x2007 then
    let p := p.mem_write (p.v &&& 0x3FFF) data
    { p with v := u16 (p.v + ctrlVramAddrIncrement p.ctrl) }
  else p

/-- The PPU read `src/bus.rs` calls as `PPU::read_data` (absent from
`src/ppu.rs`, where it is the $2007 arm of `PPU::read_port`). -/
def PPU.read_data (p : PPU) : Nat × PPU :=
  p.read_port 0x2007

/-- The PPU write `src/bus.rs` calls as `PPU::write_to_scroll` (absent from
`src/ppu.rs`, where it is the $2005 arm of `PPU::write_to_port`). -/
def PPU.write_to_scroll (p : PPU) (data : Nat) : PPU :=
  p.write_to_port 0x2005 data

/-- The PPU write `src/bus.rs` calls as `PPU::write_to_ppu_addr` (absent from
`src/ppu.rs`, where it is the $2006 arm of `PPU::write_to_port`). -/
def PPU.write_to_ppu_addr (p : PPU) (data : Nat) : PPU :=
  p.write_to_port 0x2006 data

/-- The PPU write `src/bus.rs` calls as `PPU::write_to_data` (absent from
`src/ppu.rs`, where it is the $2007 arm of `PPU::write_to_port`). -/
def PPU.write_to_data (p : PPU) (data : Nat) : PPU :=
  p.write_to_port 0x2007 data

/-! ## Joypad and Bus (`src/bus.rs`) -/

/-- Modelled from the spec: `src/joypad.rs` is absent from the tree.  Spec
section 6, "Joypad port $4016": a strobe-shift register over one button
snapshot.  No claim constrains it; it is carried only because `Bus` owns one. -/
structure Joypad where
  strobe : Bool
  button_idx : Nat
  button_status : Nat

/-- Modelled from the spec: power-on joypad state. -/
def Joypad.new : Joypad := { strobe := false, button_idx := 0, button_status := 0 }

/-- Modelled from the spec: reading $4016 returns one button bit per read in
order, then 1; strobe mode keeps replaying the first button. -/
def Joypad.read (j : Joypad) : Nat × Joypad :=
  if j.button_idx > 7 then (1, j)
  else
    let bit := (j.button_status >>> j.button_idx) &&& 1
    if j.strobe then (bit, j)
    else (bit, { j with button_idx := j.button_idx + 1 })

/-- Modelled from the spec: writing bit 0 = 1 enters strobe mode (index held
at A), bit 0 = 0 latches the snapshot for serial reading. -/
def Joypad.write (j : Joypad) (data : Nat) : Joypad :=
  let strobe := data &&& 1 = 1
  if strobe then { j with strobe := strobe, button_idx := 0 }
  else { j with strobe := strobe }

/-- The bus (`struct Bus`, `src/bus.rs` lines 35-47).  The frame callback
(`gameloop_callback`, a host closure receiving `&PPU`, `&mut APU`,
`&mut Joypad`) is passed to `Bus.tick` as a function argument instead of being
stored. -/
structure Bus where
  cpu_vram : Nat → Nat
  wram : Nat → Nat
  rom : Rom
  ppu : PPU
  apu : APU
  joypad : Joypad
  cycles : Nat
  cpu_stall : Nat

/-- `Bus::new` (`src/bus.rs` lines 50-70). -/
def Bus.new (rom : Rom) : Bus :=
  { cpu_vram := fun _ => 0, wram := fun _ => 0, rom := rom
    ppu := PPU.new rom.chr_rom rom.screen_mirroring, apu := APU.new rom
    joypad := Joypad.new, cycles := 0, cpu_stall := 0 }

/-- `Bus::poll_irq_status` (`src/bus.rs` lines 99-101). -/
def Bus.poll_irq_status (b : Bus) : Bool :=
  b.apu.poll_irq_status

/-- The inner loop of `Bus::tick` (`src/bus.rs` lines 77-85): for each of `n`
CPU cycles, three PPU ticks (OR-accumulating the frame-ready flag) followed by
one APU tick. -/
def tickLoop : Nat → PPU → APU → Bool → PPU × APU × Bool
  | 0, p, a, fr => (p, a, fr)
  | n + 1, p, a, fr =>
      let (p, fr) :=
        let (p1, r1) := p.tick
        let (p2, r2) := p1.tick
        let (p3, r3) := p2.tick
        (p3, fr || r1 || r2 || r3)
      tickLoop n p (a.tick) fr

/-- `Bus::tick` (`src/bus.rs` lines 72-93): advance the cycle counter, run the
inner loop, drain the APU's `cpu_stall` channel, and invoke the frame callback
when any PPU tick reported frame-ready. -/
def Bus.tick (cb : PPU → APU → Joypad → APU × Joypad) (b : Bus) (cycles : Nat) : Bus :=
  let b := { b with cycles := b.cycles + cycles }
  let (p, a, frame_ready) := tickLoop cycles b.ppu b.apu false
  let b := { b with ppu := p, apu := a }
  let b := { b with cpu_stall := b.apu.cpu_stall
                    apu := { b.apu with cpu_stall := 0 } }
  if frame_ready then
    let (a2, j2) := cb b.ppu b.apu b.joypad
    { b with apu := a2, joypad := j2 }
  else b

/-- `<Bus as Mem>::mem_read` (`src/bus.rs` lines 167-196).  `none` models the
source's panics ("Attempt to read from write-only PPU address ...",
"... write-only APU address ..."); reads with PPU/APU/joypad side effects
return the updated bus. -/
def Bus.mem_read (b : Bus) (addr : Nat) : Option (Nat × Bus) :=
  if addr ≤ 0x1FFF then
    some (b.cpu_vram (addr &&& 0b0000011111111111), b)
  else if addr = 0x2000 ∨ addr = 0x2001 ∨ addr = 0x2003 ∨ addr = 0x2005 ∨
          addr = 0x2006 ∨ addr = 0x4014 then
    none
  else if addr = 0x2002 then
    let (v, p) := b.ppu.read_status
    some (v, { b with ppu := p })
  else if addr = 0x2004 then
    some (b.ppu.read_oam_data, b)
  else if addr = 0x2007 then
    let (v, p) := b.ppu.read_data
    some (v, { b with ppu := p })
  else if 0x4000 ≤ addr ∧ addr ≤ 0x4014 then
    none
  else if addr = 0x4015 then
    let (v, a) := b.apu.read_register addr
    some (v, { b with apu := a })
  else if addr = 0x4016 then
    let (v, j) := b.joypad.read
    some (v, { b with joypad := j })
  else if addr = 0x4017 then
    some (0, b)
  else if 0x6000 ≤ addr ∧ addr ≤ 0x7FFF then
    some (b.wram (addr - 0x6000), b)
  else if 0x2008 ≤ addr ∧ addr ≤ 0x3FFF then
    b.mem_read (addr &&& 0b0010000000000111)
  else if 0x8000 ≤ addr ∧ addr ≤ 0xFFFF then
    some (b.rom.read_prg_rom addr, b)
  else
    some (0, b)
termination_by addr
decreasing_by
  exact lt_of_le_of_lt (Nat.and_le_right) (by omega)

/-- The OAM-DMA source loop of the $4014 arm of `Bus::mem_write` (`src/bus.rs`
lines 234-238): read the 256 source bytes in order, threading any read side
effects through the bus; `none` if any read panics. -/
def dmaReadGo (b : Bus) : List Nat → Option (List Nat × Bus)
  | [] => some ([], b)
  | i :: rest =>
      match b.mem_read i with
      | none => none
      | some (v, b1) =>
          match dmaReadGo b1 rest with
          | none => none
          | some (vs, b2) => some (v :: vs, b2)

/-- `<Bus as Mem>::mem_write` (`src/bus.rs` lines 198-262).  `none` models the
panic on the read-only $2002; the $4014 arm performs the OAM DMA copy and, as
in the source, does NOT tick the 513/514 DMA cycles (that code is commented
out behind a `todo`). -/
def Bus.mem_write (b : Bus) (addr data : Nat) : Option Bus :=
  if addr ≤ 0x1FFF then
    some { b with cpu_vram := Function.update b.cpu_vram (addr &&& 0b0000011111111111) data }
  else if addr = 0x2000 then
    some { b with ppu := b.ppu.write_to_ctrl data }
  else if addr = 0x2001 then
    some { b with ppu := b.ppu.write_to_mask data }
  else if addr = 0x2002 then
    none
  else if addr = 0x2003 then
    some { b with ppu := b.ppu.write_to_oam_addr data }
  else if addr = 0x2004 then
    some { b with ppu := b.ppu.write_to_oam_data data }
  else if addr = 0x2005 then
    some { b with ppu := b.ppu.write_to_scroll data }
  else if addr = 0x2006 then
    some { b with ppu := b.ppu.write_to_ppu_addr data }
  else if addr = 0x2007 then
    some { b with ppu := b.ppu.write_to_data data }
  else if (0x4000 ≤ addr ∧ addr ≤ 0x4013) ∨ addr = 0x4015 ∨ addr = 0x4017 then
    some { b with apu := b.apu.write_register addr data }
  else if addr = 0x4016 then
    some { b with joypad := b.joypad.write data }
  else if addr = 0x4014 then do
    let hi := data <<< 8
    let (buffer, b1) ← dmaReadGo b ((List.range 256).map (fun i => hi + i))
    pure { b1 with ppu := b1.ppu.write_oam_dma buffer }
  else if 0x2008 ≤ addr ∧ addr ≤ 0x3FFF then
    b.mem_write (addr &&& 0b0010000000000111) data
  else if 0x6000 ≤ addr ∧ addr ≤ 0x7FFF then
    some { b with wram := Function.update b.wram (addr - 0x6000) data }
  else if 0x8000 ≤ addr ∧ addr ≤ 0xFFFF then
    some b
  else
    some b
termination_by addr
decreasing_by
  exact lt_of_le_of_lt (Nat.and_le_right) (by omega)

/-- `Bus::get_state_at` (`src/bus.rs` lines 121-149): the side-effect-free
inspection read, returning 0xFF for write-only or uninspectable locations.
(The $4015 arm reaches the absent `APU::get_status` through the in-tree
`Inspector` impl of `src/apu.rs`.) -/
def Bus.get_state_at (b : Bus) (addr : Nat) : Nat :=
  if addr ≤ 0x1FFF then
    b.cpu_vram (addr &&& 0b0000011111111111)
  else if addr = 0x2000 ∨ addr = 0x2001 ∨ addr = 0x2003 ∨ addr = 0x2005 ∨
          addr = 0x2006 ∨ addr = 0x4014 then
    0xFF
  else if addr = 0x2002 then
    b.ppu.status
  else if addr = 0x2004 then
    b.ppu.read_oam_data
  else if addr = 0x2007 then
    0xFF
  else if 0x4000 ≤ addr ∧ addr ≤ 0x4014 then
    0xFF
  else if addr = 0x4015 then
    b.apu.get_status addr
  else if addr = 0x4016 then
    0xFF
  else if addr = 0x4017 then
    0xFF
  else if 0x6000 ≤ addr ∧ addr ≤ 0x7FFF then
    b.wram (addr - 0x6000)
  else if 0x2008 ≤ addr ∧ addr ≤ 0x3FFF then
    b.get_state_at (addr &&& 0b0010000000000111)
  else if 0x8000 ≤ addr ∧ addr ≤ 0xFFFF then
    b.rom.read_prg_rom addr
  else
    0xFF
termination_by addr
decreasing_by
  exact lt_of_le_of_lt (Nat.and_le_right) (by omega)

/-! ## Specification-side helpers used by the claim statements -/

/-- One PPU dot: the state component of `PPU::tick`. -/
def ppuStep (p : PPU) : PPU := p.tick.1

/-- Whether any of the next `k` successive PPU ticks starting from `p`
reports frame-ready. -/
def ppuFrameReadyAny : PPU → Nat → Bool
  | _, 0 => false
  | p, k + 1 => p.tick.2 || ppuFrameReadyAny (ppuStep p) k

/-- A minimal concrete cartridge used by witness instantiations. -/
def romZero : Rom :=
  { prg_rom := [], chr_rom := [], mapper := 0, screen_mirroring := Mirroring.Horizontal }

/-! ## Claim theorems -/

/-- C5 counterexample: `from_u8 (to_u8 s)` does not equal `s` for every CPU
status value, refuting the round-trip clause as stated: the private
`irq_disable_pending` field is erased by the round trip (here `some true`
becomes `none`). -/
theorem c5_roundtrip_counterexample :
    Status.from_u8 (Status.to_u8 { Status.default with irq_disable_pending := some true }) ≠
      { Status.default with irq_disable_pending := some true } := by
  decide

/-- C5 (amended): for every status whose `irq_disable_pending` is `None` (the
only kind either `from_u8` or any reachable execution constructs),
`from_u8 (to_u8 s) = s`; bit 5 of `to_u8 s` is always 1; the status byte
pushed by the NMI/IRQ interrupt sequence has the B bit (bit 4) clear while PHP
and BRK push it set; and reading back an interrupt-pushed byte restores B = 0
(RTI) just as PLP forces B = 0 on the byte PHP pushed. -/
theorem c5_status_roundtrip (s : Status) (h : s.irq_disable_pending = none) :
    Status.from_u8 (Status.to_u8 s) = s ∧
    Status.to_u8 s &&& 0b00100000 = 0b00100000 ∧
    interruptPushedStatus s Interrupt.NMI &&& 0b00010000 = 0 ∧
    interruptPushedStatus s Interrupt.IRQ &&& 0b00010000 = 0 ∧
    interruptPushedStatus s Interrupt.BRK &&& 0b00010000 = 0b00010000 ∧
    phpPushedStatus s &&& 0b00010000 = 0b00010000 ∧
    (rtiRestoredStatus (interruptPushedStatus s Interrupt.NMI)).break_command = false ∧
    (rtiRestoredStatus (interruptPushedStatus s Interrupt.IRQ)).break_command = false ∧
    (plpRestoredStatus (phpPushedStatus s)).break_command = false := by
  obtain ⟨c, z, i, d, bk, o, n, pend⟩ := s
  simp only at h
  subst h
  revert c z i d bk o n
  decide

/-- C5 witness: the amended round trip evaluated at the power-on status. -/
theorem c5_witness :
    Status.default.irq_disable_pending = none ∧
    Status.from_u8 (Status.to_u8 Status.default) = Status.default :=
  ⟨rfl, (c5_status_roundtrip Status.default rfl).1⟩

/-- Unfolding lemma: u16 wrapping subtraction is plain subtraction when it
cannot underflow. -/
theorem wsub16_of_le (a b : Nat) (hb : b ≤ a) (ha : a < 65536) :
    wsub16 a b = a - b := by
  unfold wsub16
  omega

/-- C7: on every sweep clock the channel is muted exactly when the current
timer period is below 8 or the target period exceeds $7FF; the timer period is
replaced by the target exactly when the divider is at zero with enable set,
shift nonzero and the channel not muted; the target is current + (current >>
shift) on the add path, and current - (current >> shift) minus one extra on
pulse 1 on the negate path (shown below for the no-underflow case; the source
computes it with u16 wrapping subtraction). -/
theorem c7_sweep_clock (s : Sweep) (t : ATimer) :
    ((Sweep.clock s t).1.mute = true ↔
      (0x7ff < s.target_period t.period ∨ t.period < 8)) ∧
    ((Sweep.clock s t).2.period =
      if s.counter = 0 ∧ s.enabled = true ∧ 0 < s.shift ∧
         ¬(0x7ff < s.target_period t.period ∨ t.period < 8) then
        s.target_period t.period
      else t.period) ∧
    (s.negate = false →
      s.target_period t.period = t.period + t.period >>> s.shift) ∧
    (s.negate = true → t.period < 65536 →
      t.period >>> s.shift + (cond s.is_channel1 1 0) ≤ t.period →
      s.target_period t.period =
        t.period - t.period >>> s.shift - cond s.is_channel1 1 0) := by
  refine ⟨?_, ?_, ?_, ?_⟩
  · simp only [Sweep.clock]
    split <;> simp [decide_eq_true_iff]
  · simp only [Sweep.clock, ATimer.update_period]
    by_cases hC : s.counter = 0 ∧ s.enabled = true ∧ s.shift > 0 ∧
        ¬(decide (s.target_period t.period > 0x7ff ∨ t.period < 8)) = true
    · have hC' : s.counter = 0 ∧ s.enabled = true ∧ 0 < s.shift ∧
          ¬(0x7ff < s.target_period t.period ∨ t.period < 8) :=
        ⟨hC.1, hC.2.1, hC.2.2.1, by simpa [decide_eq_true_iff] using hC.2.2.2⟩
      rw [if_pos hC, if_pos hC']
    · have hC' : ¬(s.counter = 0 ∧ s.enabled = true ∧ 0 < s.shift ∧
          ¬(0x7ff < s.target_period t.period ∨ t.period < 8)) := fun h =>
        hC ⟨h.1, h.2.1, h.2.2.1, by simpa [decide_eq_true_iff] using h.2.2.2⟩
      rw [if_neg hC, if_neg hC']
  · intro hneg
    simp [Sweep.target_period, hneg]
  · intro hneg hlt hle
    simp only [Sweep.target_period, hneg, if_pos]
    generalize hch : t.period >>> s.shift = ch at hle ⊢
    cases hcb : s.is_channel1 <;> simp only [hcb, cond] at hle ⊢ <;>
      rw [wsub16_of_le _ _ (by omega) hlt,
          wsub16_of_le _ _ (by omega) (by omega)]

/-- C7 witness: the target-period characterizations evaluated on concrete
sweep units (add path, and pulse-1 negate path at period 10, shift 1). -/
theorem c7_witness :
    (Sweep.new true).target_period 10 = 10 + 10 >>> 0 ∧
    ({ Sweep.new true with negate := true, shift := 1 } : Sweep).target_period 10 =
      10 - 10 >>> 1 - 1 := by
  constructor
  · exact (c7_sweep_clock (Sweep.new true) { counter := 0, period := 10 }).2.2.1 rfl
  · simpa using (c7_sweep_clock { Sweep.new true with negate := true, shift := 1 }
      { counter := 0, period := 10 }).2.2.2 rfl (by decide) (by decide)

/-- C8: for every PPU state and byte, a palette write through $3F10, $3F14,
$3F18 or $3F1C stores to the same cell as $3F00, $3F04, $3F08 or $3F0C
respectively, and vice versa: the byte written through either alias reads back
identically through the other. -/
theorem c8_palette_mirror (p : PPU) (d : Nat) :
    (p.mem_write 0x3F10 d).mem_read 0x3F00 = d ∧
    (p.mem_write 0x3F00 d).mem_read 0x3F10 = d ∧
    (p.mem_write 0x3F14 d).mem_read 0x3F04 = d ∧
    (p.mem_write 0x3F04 d).mem_read 0x3F14 = d ∧
    (p.mem_write 0x3F18 d).mem_read 0x3F08 = d ∧
    (p.mem_write 0x3F08 d).mem_read 0x3F18 = d ∧
    (p.mem_write 0x3F1C d).mem_read 0x3F0C = d ∧
    (p.mem_write 0x3F0C d).mem_read 0x3F1C = d := by
  refine ⟨?_, ?_, ?_, ?_, ?_, ?_, ?_, ?_⟩ <;>
    simp [PPU.mem_read, PPU.mem_write, Function.update] <;>
    (intro h; exact absurd (by decide) h)

/-- C10: a read of the DATA port $2007 returns the previous contents of the
internal read buffer, reloads the buffer from the VRAM/palette location at
`v & $3FFF`, and advances `v` by the CTRL-configured increment (as u16).  The
equations hold for every PPU state, in particular when `v & $3FFF` lies in the
palette range $3F00-$3FFF: the palette table is left untouched and the stale
buffer is still what is returned, i.e. palette reads get no buffer bypass. -/
theorem c10_data_port_read (p : PPU) :
    (p.read_port 0x2007).1 = p.data_buffer ∧
    (p.read_port 0x2007).2.data_buffer = p.mem_read (p.v &&& 0x3FFF) ∧
    (p.read_port 0x2007).2.v = (p.v + ctrlVramAddrIncrement p.ctrl) % 65536 ∧
    (p.read_port 0x2007).2.palette_table = p.palette_table ∧
    (p.read_port 0x2007).2.vram = p.vram := by
  refine ⟨?_, ?_, ?_, ?_, ?_⟩ <;>
    simp [PPU.read_port, u16]

/-- C9 counterexample: `Rom::new` does NOT reject cartridges whose mapper
number is nonzero.  A 16-byte iNES image with flag6 = $10 (mapper 1, zero-page
PRG/CHR) is accepted and a `Rom` with `mapper = 1` is constructed, refuting
the "Err for every nonzero mapper" clause (the source's own `test_new` also
accepts mapper 3). -/
theorem c9_mapper_counterexample :
    Rom.new [0x4e, 0x45, 0x53, 0x1a, 0, 0, 0x10, 0, 0, 0, 0, 0, 0, 0, 0, 0] =
      some (Except.ok { prg_rom := [], chr_rom := [], mapper := 1,
                        screen_mirroring := Mirroring.Horizontal }) := by
  rfl

/-- C9 (amended): `Rom::new` returns a recoverable `Err` (never a panic, never
a `Rom`) when the first four bytes are not the iNES magic, and for every
nonzero iNES version field - in particular every NES 2.0 header (flag7 bits
2-3 = 0b10).  It does NOT reject nonzero mappers: any constructed `Rom`
records `(flag7 & $F0) | (flag6 >> 4)` unchecked.  For accepted inputs the
mirroring tag is four-screen when flag6 bit 3 is set, else vertical iff flag6
bit 0 is set. -/
theorem c9_rom_new (raw : List Nat) :
    (4 ≤ raw.length → raw.take 4 ≠ NES_TAG →
      Rom.new raw = some (.error "File is not in iNES format.")) ∧
    (8 ≤ raw.length → raw.take 4 = NES_TAG →
      ((raw.getD 7 0) >>> 2) &&& 0b11 ≠ 0 →
      Rom.new raw = some (.error "NES2.0 format is not supported.")) ∧
    (∀ r : Rom, Rom.new raw = some (.ok r) →
      r.mapper = (raw.getD 7 0) &&& 0b11110000 ||| (raw.getD 6 0) >>> 4 ∧
      r.screen_mirroring =
        (if (raw.getD 6 0) &&& 0b1000 ≠ 0 then Mirroring.FourScreen
         else if (raw.getD 6 0) &&& 0b1 ≠ 0 then Mirroring.Vertical
         else Mirroring.Horizontal)) := by
  refine ⟨?_, ?_, ?_⟩
  · intro hlen htag
    unfold Rom.new
    rw [if_neg (by omega), if_pos htag]
  · intro hlen htag hver
    unfold Rom.new
    rw [if_neg (by omega), if_neg (by simp [htag]), if_neg (by omega), if_pos hver]
  · intro r h
    unfold Rom.new at h
    simp only [ne_eq] at h
    split_ifs at h <;>
      first
        | (obtain rfl := Except.ok.inj (Option.some.inj h)
           constructor <;> simp_all)
        | simp at h

/-- C9 witness: the amended statement evaluated on concrete images - a
wrong-magic file, a NES 2.0 header, and an accepted vertical-mirroring
cartridge. -/
theorem c9_witness :
    Rom.new [0, 0, 0, 0] = some (.error "File is not in iNES format.") ∧
    Rom.new [0x4e, 0x45, 0x53, 0x1a, 0, 0, 0, 8] =
      some (.error "NES2.0 format is not supported.") ∧
    ({ prg_rom := [], chr_rom := [], mapper := 0,
       screen_mirroring := Mirroring.Vertical } : Rom).screen_mirroring =
      (if (1 : Nat) &&& 0b1000 ≠ 0 then Mirroring.FourScreen
       else if (1 : Nat) &&& 0b1 ≠ 0 then Mirroring.Vertical
       else Mirroring.Horizontal) := by
  refine ⟨?_, ?_, ?_⟩
  · exact (c9_rom_new [0, 0, 0, 0]).1 (by decide) (by decide)
  · exact (c9_rom_new [0x4e, 0x45, 0x53, 0x1a, 0, 0, 0, 8]).2.1
      (by decide) (by decide) (by decide)
  · have := (c9_rom_new [0x4e, 0x45, 0x53, 0x1a, 0, 0, 1, 0, 0, 0, 0, 0, 0, 0, 0, 0]).2.2
      { prg_rom := [], chr_rom := [], mapper := 0,
        screen_mirroring := Mirroring.Vertical } (by rfl)
    exact this.2

/-- C4: the claimed one-instruction delay of I-flag changes does not exist in
the code.  The Done-boundary poll does latch the IRQ LINE one boundary behind
(`irq = irq_pending`), but it consults the CURRENT
`status.interrupt_disable_flag`, and the CLI/SEI arms of `CPU::calculate`
change that flag immediately (the CLI arm carries a literal "TODO: Delay flag
change by 1 instruction", and the `irq_disable_pending` field documented to
implement the delay is never written by any instruction).  Concretely: with
the IRQ line held high and I = 1, the boundary poll before a CLI suppresses
the IRQ, yet the poll at the boundary of the CLI itself already sees I = 0 and
enters `IRQ(0)` - one instruction earlier than the claim allows; dually, an
IRQ latched during a SEI is suppressed at the SEI's own boundary instead of
being taken under the old I = 0. -/
theorem c4_irq_masking_not_delayed :
    -- CLI scenario: line high throughout, I set; boundary before CLI.
    (({ status := { Status.default with interrupt_disable_flag := true },
        irq := false, irq_pending := true,
        state := CpuState.Done } : CpuIrq).donePoll false true).state =
      CpuState.Next ∧
    -- the CLI instruction clears I immediately, leaving no pending record,
    (calcCLI { Status.default with
        interrupt_disable_flag := true }).interrupt_disable_flag = false ∧
    (calcCLI { Status.default with
        interrupt_disable_flag := true }).irq_disable_pending = none ∧
    -- and the poll at the CLI's own Done boundary already takes the IRQ.
    (((({ status := { Status.default with interrupt_disable_flag := true },
          irq := false, irq_pending := true,
          state := CpuState.Done } : CpuIrq).donePoll false true).runCLI).donePoll
        false true).state = CpuState.IRQ 0 ∧
    -- SEI scenario: line rises during the SEI (latched at its boundary).
    ((({ status := Status.default, irq := false, irq_pending := true,
         state := CpuState.Done } : CpuIrq).donePoll false true) =
      { status := Status.default, irq := true, irq_pending := true,
        state := CpuState.IRQ 0 }) ∧
    -- the same boundary with I already set by the SEI suppresses the IRQ,
    -- though under the claim the pre-SEI I = 0 should still let it fire.
    (({ status := calcSEI Status.default, irq := false, irq_pending := true,
        state := CpuState.Done } : CpuIrq).donePoll false true).state =
      CpuState.Next := by
  decide

/-- C6: writing $4017 with the mode bit (bit 7) set immediately - on the same
cycle as the write, inside `APU::write_register` itself - clocks both the
quarter-frame units (both pulse envelopes, the noise envelope and the triangle
linear counter) and the half-frame units (all four length counters and both
pulse sweeps); and writing with the IRQ-inhibit bit (bit 6) set clears the
pending frame IRQ flag. -/
theorem c6_frame_counter_write (a : APU) (val : Nat) :
    (val &&& 0b10000000 ≠ 0 →
      (a.write_register 0x4017 val).pulse1.envelope = a.pulse1.envelope.clock ∧
      (a.write_register 0x4017 val).pulse2.envelope = a.pulse2.envelope.clock ∧
      (a.write_register 0x4017 val).noise.envelope = a.noise.envelope.clock ∧
      (a.write_register 0x4017 val).triangle.linear_counter =
        a.triangle.linear_counter.clock ∧
      (a.write_register 0x4017 val).pulse1.length_counter =
        a.pulse1.length_counter.clock ∧
      (a.write_register 0x4017 val).pulse2.length_counter =
        a.pulse2.length_counter.clock ∧
      (a.write_register 0x4017 val).triangle.length_counter =
        a.triangle.length_counter.clock ∧
      (a.write_register 0x4017 val).noise.length_counter =
        a.noise.length_counter.clock ∧
      ((a.write_register 0x4017 val).pulse1.sweep,
        (a.write_register 0x4017 val).pulse1.timer) =
        a.pulse1.sweep.clock a.pulse1.timer ∧
      ((a.write_register 0x4017 val).pulse2.sweep,
        (a.write_register 0x4017 val).pulse2.timer) =
        a.pulse2.sweep.clock a.pulse2.timer) ∧
    (val &&& 0b01000000 ≠ 0 →
      (a.write_register 0x4017 val).frame_counter.irq_flag = false) := by
  constructor
  · intro h7
    simp only [APU.write_register]
    norm_num [h7, APU.clock_half_frame, Pulse.clock_half_frame,
      Pulse.clock_quarter_frame, Triangle.clock_half_frame,
      Triangle.clock_quarter_frame, Noise.half_frame_clock]
  · intro h6
    have hw : (a.frame_counter.write_register val).irq_flag = false := by
      simp only [FrameCounter.write_register]
      split_ifs <;> simp_all
    simp only [APU.write_register]
    norm_num
    split <;>
      simpa [APU.clock_half_frame, Pulse.clock_half_frame,
        Pulse.clock_quarter_frame, Triangle.clock_half_frame,
        Noise.half_frame_clock] using hw

/-- C6 witness: a $C0 write (5-step mode + IRQ inhibit) to the power-on APU
clocks the pulse-1 envelope (a quarter-frame unit) and length counter (a
half-frame unit) and clears the frame IRQ flag. -/
theorem c6_witness :
    ((0xC0 : Nat) &&& 0b10000000 ≠ 0) ∧ ((0xC0 : Nat) &&& 0b01000000 ≠ 0) ∧
    ((APU.new romZero).write_register 0x4017 0xC0).pulse1.envelope =
      (APU.new romZero).pulse1.envelope.clock ∧
    ((APU.new romZero).write_register 0x4017 0xC0).pulse1.length_counter =
      (APU.new romZero).pulse1.length_counter.clock ∧
    ((APU.new romZero).write_register 0x4017 0xC0).frame_counter.irq_flag = false := by
  have h := c6_frame_counter_write (APU.new romZero) 0xC0
  exact ⟨by decide, by decide, (h.1 (by decide)).1, (h.1 (by decide)).2.2.2.2.1,
    h.2 (by decide)⟩

/-- C3: the bus does NOT return the open-bus latch for reads of the write-only
PPU ports - `Bus::mem_read` panics ("Attempt to read from write-only PPU
address", modelled as `none`) for $2000/$2001/$2003/$2005/$2006, even though
the in-tree `PPU::read_port` implements exactly the claimed open-bus behavior
for those ports, and `Bus::get_state_at` (the side-effect-free inspection
interface) does return 0xFF for them as claimed.  The "every PPU write updates
the latch" clause also fails: a $2001 (MASK) write through
`PPU::write_to_port` leaves `open_bus` untouched (only the $2000 and $2002
write arms update it). -/
theorem c3_write_only_reads (b : Bus) (p : PPU) (d : Nat) :
    Bus.mem_read b 0x2000 = none ∧
    Bus.mem_read b 0x2001 = none ∧
    Bus.mem_read b 0x2003 = none ∧
    Bus.mem_read b 0x2005 = none ∧
    Bus.mem_read b 0x2006 = none ∧
    (p.read_port 0x2000).1 = p.open_bus ∧
    (p.read_port 0x2001).1 = p.open_bus ∧
    (p.read_port 0x2003).1 = p.open_bus ∧
    (p.read_port 0x2005).1 = p.open_bus ∧
    (p.read_port 0x2006).1 = p.open_bus ∧
    (p.write_to_port 0x2000 d).open_bus = d ∧
    (p.write_to_port 0x2001 d).open_bus = p.open_bus ∧
    Bus.get_state_at b 0x2000 = 0xFF ∧
    Bus.get_state_at b 0x2001 = 0xFF ∧
    Bus.get_state_at b 0x2003 = 0xFF ∧
    Bus.get_state_at b 0x2005 = 0xFF ∧
    Bus.get_state_at b 0x2006 = 0xFF := by
  refine ⟨?_, ?_, ?_, ?_, ?_, ?_, ?_, ?_, ?_, ?_, ?_, ?_, ?_, ?_, ?_, ?_, ?_⟩ <;>
    first
      | (rw [Bus.mem_read]; norm_num)
      | (rw [Bus.get_state_at]; norm_num)
      | (simp [PPU.read_port, PPU.write_to_port, PPU.write_to_mask,
          PPU.write_to_ctrl])

/-- RAM reads on the bus are pure: value from `cpu_vram` under the $0800
mirror mask, bus unchanged. -/
theorem bus_mem_read_ram (b : Bus) (i : Nat) (h : i ≤ 0x1FFF) :
    b.mem_read i = some (b.cpu_vram (i &&& 0b0000011111111111), b) := by
  rw [Bus.mem_read, if_pos h]

/-- The DMA source loop over RAM-only addresses collects the mirrored RAM
bytes in order and leaves the bus unchanged. -/
theorem dmaReadGo_ram (l : List Nat) : ∀ b : Bus, (∀ i ∈ l, i ≤ 0x1FFF) →
    dmaReadGo b l =
      some (l.map (fun i => b.cpu_vram (i &&& 0b0000011111111111)), b) := by
  induction l with
  | nil => intro b _; rfl
  | cons x xs ih =>
      intro b h
      rw [dmaReadGo, bus_mem_read_ram b x (h x (by simp))]
      simp only [ih b (fun i hi => h i (by simp [hi])), List.map_cons]

/-- One step of `PPU::write_oam_dma`. -/
theorem write_oam_dma_cons (p : PPU) (x : Nat) (xs : List Nat) :
    p.write_oam_dma (x :: xs) =
      ({ p with oam_data := Function.update p.oam_data p.oam_addr x,
                oam_addr := wadd8 p.oam_addr 1 } : PPU).write_oam_dma xs := rfl

/-- OAM cells the DMA window does not cover are preserved. -/
theorem write_oam_dma_untouched (buf : List Nat) : ∀ (p : PPU) (j : Nat),
    p.oam_addr < 256 → buf.length ≤ 256 →
    (∀ k, k < buf.length → (p.oam_addr + k) % 256 ≠ j) →
    (p.write_oam_dma buf).oam_data j = p.oam_data j := by
  induction buf with
  | nil => intro p j _ _ _; rfl
  | cons x xs ih =>
      intro p j ha hlen h
      rw [write_oam_dma_cons]
      have hupd : (({ p with oam_data := Function.update p.oam_data p.oam_addr x,
                             oam_addr := wadd8 p.oam_addr 1 } : PPU).write_oam_dma
            xs).oam_data j =
          Function.update p.oam_data p.oam_addr x j := by
        apply ih
        · simp only [wadd8]; omega
        · simpa using Nat.le_of_succ_le hlen
        · intro k hk
          have h1 := h (k + 1) (by simp only [List.length_cons]; omega)
          simp only [wadd8]
          intro hc
          apply h1
          omega
      rw [hupd, Function.update_noteq]
      have h0 := h 0 (by simp)
      rw [Nat.add_zero, Nat.mod_eq_of_lt ha] at h0
      exact fun hc => h0 hc.symm

/-- `PPU::write_oam_dma` lands byte `i` of the buffer at
`(start + i) mod 256` and leaves `oam_addr` advanced by the buffer length
(back to `start` for a full 256-byte DMA). -/
theorem write_oam_dma_at (buf : List Nat) : ∀ (p : PPU),
    p.oam_addr < 256 → buf.length ≤ 256 →
    ((p.write_oam_dma buf).oam_addr = (p.oam_addr + buf.length) % 256 ∧
     ∀ i, i < buf.length →
      (p.write_oam_dma buf).oam_data ((p.oam_addr + i) % 256) = buf.getD i 0) := by
  induction buf with
  | nil =>
      intro p ha _
      exact ⟨by simp [PPU.write_oam_dma, Nat.mod_eq_of_lt ha],
        by intro i hi; simp at hi⟩
  | cons x xs ih =>
      intro p ha hlen
      rw [write_oam_dma_cons]
      have ha1 : (wadd8 p.oam_addr 1) < 256 := by simp only [wadd8]; omega
      have hlen1 : xs.length ≤ 256 := by simpa using Nat.le_of_succ_le hlen
      obtain ⟨haddr, hdata⟩ :=
        ih { p with oam_data := Function.update p.oam_data p.oam_addr x,
                    oam_addr := wadd8 p.oam_addr 1 } ha1 hlen1
      constructor
      · rw [haddr]
        simp only [wadd8, List.length_cons]
        omega
      · intro i hi
        match i with
        | 0 =>
            rw [Nat.add_zero, Nat.mod_eq_of_lt ha]
            rw [write_oam_dma_untouched xs _ _ ha1 hlen1 (fun k hk => by
              simp only [wadd8]
              have hk' : 1 + k < 256 := by
                have : xs.length ≤ 255 := by
                  simp only [List.length_cons] at hlen; omega
                omega
              intro hcontra
              omega)]
            simp [Function.update]
        | Nat.succ j =>
            have hj : j < xs.length := by
              simp only [List.length_cons] at hi; omega
            have hd := hdata j hj
            have heq : ((wadd8 p.oam_addr 1) + j) % 256 = (p.oam_addr + (j + 1)) % 256 := by
              simp only [wadd8, Nat.mod_add_mod]
              omega
            rw [heq] at hd
            simpa using hd

/-- C2: a write of $02 to $4014 copies the 256 bytes of CPU page $0200 into
OAM starting at the current OAM pointer, wrapping mod 256 (that half of the
claim holds) - but the global cycle counter does NOT advance by 513/514
cycles: it does not advance at all, and the APU (hence also the PPU, which is
only ticked from the same loop) is not ticked, because the DMA cycle cost in
the $4014 arm of `Bus::mem_write` is commented out behind a `todo`. -/
theorem c2_oam_dma (b : Bus) (h : b.ppu.oam_addr < 256) :
    ∃ b', Bus.mem_write b 0x4014 0x02 = some b' ∧
      b'.cycles = b.cycles ∧
      b'.apu = b.apu ∧
      b'.ppu.oam_addr = b.ppu.oam_addr ∧
      ∀ i, i < 256 → b'.ppu.oam_data ((b.ppu.oam_addr + i) % 256) =
        b.cpu_vram (0x200 + i) := by
  have hlist : ∀ j ∈ (List.range 256).map (fun i => 2 <<< 8 + i), j ≤ 0x1FFF := by
    intro j hj
    simp only [List.mem_map, List.mem_range] at hj
    obtain ⟨i, hi, rfl⟩ := hj
    omega
  have hdma := dmaReadGo_ram ((List.range 256).map (fun i => 2 <<< 8 + i)) b hlist
  have hw : Bus.mem_write b 0x4014 0x02 =
      some { b with ppu :=
        b.ppu.write_oam_dma (((List.range 256).map (fun i => 2 <<< 8 + i)).map
          (fun i => b.cpu_vram (i &&& 0b0000011111111111))) } := by
    rw [Bus.mem_write]
    norm_num
    rw [hdma]
    simp [List.map_map]
  refine ⟨_, hw, rfl, rfl, ?_, ?_⟩
  · obtain ⟨haddr, _⟩ := write_oam_dma_at
      (((List.range 256).map (fun i => 2 <<< 8 + i)).map
        (fun i => b.cpu_vram (i &&& 0b0000011111111111))) b.ppu h (by simp)
    show (b.ppu.write_oam_dma _).oam_addr = b.ppu.oam_addr
    rw [haddr]
    simp only [List.length_map, List.length_range]
    omega
  · intro i hi
    obtain ⟨_, hdata⟩ := write_oam_dma_at
      (((List.range 256).map (fun i => 2 <<< 8 + i)).map
        (fun i => b.cpu_vram (i &&& 0b0000011111111111))) b.ppu h (by simp)
    have hd := hdata i (by simpa using hi)
    show (b.ppu.write_oam_dma _).oam_data ((b.ppu.oam_addr + i) % 256) =
      b.cpu_vram (0x200 + i)
    rw [hd]
    have hand : (512 + i) &&& 2047 = 512 + i := by
      have hmod := Nat.and_pow_two_sub_one_eq_mod (512 + i) 11
      norm_num at hmod
      omega
    simp [List.getD_eq_getElem?_getD, List.getElem?_map, List.getElem?_range, hi]
    rw [hand]

/-- Witness for C2: the DMA copy evaluated on a freshly constructed bus. -/
theorem c2_witness :
    (Bus.new romZero).ppu.oam_addr < 256 ∧
    (∃ b', Bus.mem_write (Bus.new romZero) 0x4014 0x02 = some b' ∧
      b'.cycles = (Bus.new romZero).cycles ∧
      b'.apu = (Bus.new romZero).apu ∧
      b'.ppu.oam_addr = (Bus.new romZero).ppu.oam_addr ∧
      ∀ i, i < 256 →
        b'.ppu.oam_data (((Bus.new romZero).ppu.oam_addr + i) % 256) =
          (Bus.new romZero).cpu_vram (0x200 + i)) :=
  ⟨by decide, c2_oam_dma (Bus.new romZero) (by decide)⟩

/-- `APU::tick` increments the APU cycle counter by exactly one (no other
statement of `APU::tick` touches `cycles`). -/
theorem apu_tick_cycles (a : APU) : (APU.tick a).cycles = a.cycles + 1 := by
  simp only [APU.tick, APU.clock_quarter_frame, APU.clock_half_frame]
  repeat' split
  all_goals rfl

/-- Iterated form: n APU ticks advance the APU cycle counter by exactly n. -/
theorem apu_iterate_cycles (n : Nat) : ∀ a : APU,
    (APU.tick^[n] a).cycles = a.cycles + n := by
  induction n with
  | zero => intro a; simp
  | succ n ih =>
      intro a
      rw [Function.iterate_succ_apply, ih, apu_tick_cycles]
      omega

set_option maxHeartbeats 1000000 in
/-- The inner loop of `Bus::tick` is: 3n successive single PPU dots, n
successive APU ticks, and the OR of the frame-ready reports of all 3n dots. -/
theorem tickLoop_eq (n : Nat) : ∀ (p : PPU) (a : APU) (fr : Bool),
    tickLoop n p a fr =
      (ppuStep^[3 * n] p, APU.tick^[n] a, fr || ppuFrameReadyAny p (3 * n)) := by
  induction n with
  | zero => intro p a fr; simp [tickLoop, ppuFrameReadyAny]
  | succ n ih =>
      intro p a fr
      rcases hp1 : p.tick with ⟨p1, r1⟩
      rcases hp2 : p1.tick with ⟨p2, r2⟩
      rcases hp3 : p2.tick with ⟨p3, r3⟩
      have h3 : 3 * (n + 1) = 3 * n + 1 + 1 + 1 := by ring
      have hs1 : ppuStep p = p1 := by simp [ppuStep, hp1]
      have hs2 : ppuStep p1 = p2 := by simp [ppuStep, hp2]
      have hs3 : ppuStep p2 = p3 := by simp [ppuStep, hp3]
      rw [h3]
      simp only [tickLoop, hp1, hp2, hp3, ih, ppuFrameReadyAny,
        Function.iterate_succ_apply, hs1, hs2, hs3, Bool.or_assoc]

set_option maxHeartbeats 1000000 in
/-- C1: `Bus::tick(cb, n)` advances the global cycle counter by exactly n;
for each of the n cycles the PPU is ticked exactly three times and the APU
once, so the final PPU state is the 3n-fold iterate of the single-dot
`PPU::tick` and the APU cycle counter has advanced by exactly n; and when any
of the 3n PPU dots reports frame-ready, the frame callback runs exactly once,
after all inner ticks (it receives the final PPU state and the final APU
state with the stall channel already drained). -/
theorem c1_bus_tick (cb : PPU → APU → Joypad → APU × Joypad) (b : Bus) (n : Nat) :
    Bus.tick cb b n =
      (if ppuFrameReadyAny b.ppu (3 * n) then
        { b with cycles := b.cycles + n,
                 ppu := ppuStep^[3 * n] b.ppu,
                 apu := (cb (ppuStep^[3 * n] b.ppu)
                   { APU.tick^[n] b.apu with cpu_stall := 0 } b.joypad).1,
                 joypad := (cb (ppuStep^[3 * n] b.ppu)
                   { APU.tick^[n] b.apu with cpu_stall := 0 } b.joypad).2,
                 cpu_stall := (APU.tick^[n] b.apu).cpu_stall }
      else
        { b with cycles := b.cycles + n,
                 ppu := ppuStep^[3 * n] b.ppu,
                 apu := { APU.tick^[n] b.apu with cpu_stall := 0 },
                 cpu_stall := (APU.tick^[n] b.apu).cpu_stall }) ∧
    (APU.tick^[n] b.apu).cycles = b.apu.cycles + n := by
  constructor
  · rw [Bus.tick, tickLoop_eq]
    simp only [Bool.false_or]
  · exact apu_iterate_cycles n b.apu
